import Mathlib

/-!
Verification of the cross-domain component of rutabaga_gfx
(src/src/cross_domain/mod.rs), as a shallow embedding in Lean.

Machine integers are modelled as `Nat` with explicit `% 2^32` where u32
wrap-around matters.  `BTreeMap` is modelled as an association list whose
`insert` replaces an existing key.  OS objects (descriptors, pipes, events,
stream sockets) are modelled as numeric tokens; OS calls that the claims do
not exercise are modelled as succeeding.
-/

/-- Association-list lookup, mirroring `BTreeMap::get`. -/
def mapLookup {κ α : Type} [DecidableEq κ] : List (κ × α) → κ → Option α
  | [], _ => none
  | (k2, v) :: rest, k => if k2 = k then some v else mapLookup rest k

/-- Association-list insert, mirroring `BTreeMap::insert` (replaces an
existing key). -/
def mapInsert {κ α : Type} [DecidableEq κ] : List (κ × α) → κ → α → List (κ × α)
  | [], k, v => [(k, v)]
  | (k2, v2) :: rest, k, v =>
    if k2 = k then (k, v) :: rest else (k2, v2) :: mapInsert rest k v

/-- Association-list removal, mirroring `BTreeMap::remove`.  Our maps are
only ever built with `mapInsert`, whose keys stay distinct, so removing every
binding of the key coincides with `BTreeMap` behaviour. -/
def mapRemove {κ α : Type} [DecidableEq κ] : List (κ × α) → κ → List (κ × α)
  | [], _ => []
  | (k2, v2) :: rest, k =>
    if k2 = k then mapRemove rest k else (k2, v2) :: mapRemove rest k

/-- `BTreeMap::contains_key`. -/
def mapContains {κ α : Type} [DecidableEq κ] (m : List (κ × α)) (k : κ) : Bool :=
  (mapLookup m k).isSome

theorem mapLookup_insert_self {κ α : Type} [DecidableEq κ] (m : List (κ × α)) (k : κ) (v : α) :
    mapLookup (mapInsert m k v) k = some v := by
  induction m with
  | nil => simp [mapInsert, mapLookup]
  | cons hd tl ih =>
    obtain ⟨k2, v2⟩ := hd
    by_cases h : k2 = k
    · simp [mapInsert, h, mapLookup]
    · simp [mapInsert, h, mapLookup, ih]

theorem mapLookup_insert_ne {κ α : Type} [DecidableEq κ] (m : List (κ × α)) (k k2 : κ) (v : α)
    (h : k ≠ k2) : mapLookup (mapInsert m k v) k2 = mapLookup m k2 := by
  induction m with
  | nil => simp [mapInsert, mapLookup, h]
  | cons hd tl ih =>
    obtain ⟨k3, v3⟩ := hd
    by_cases h3 : k3 = k
    · subst h3
      simp [mapInsert, mapLookup, h]
    · simp only [mapInsert, if_neg h3, mapLookup]
      by_cases h4 : k3 = k2
      · simp [h4]
      · simp [h4, ih]

theorem mapLookup_remove_self {κ α : Type} [DecidableEq κ] (m : List (κ × α)) (k : κ) :
    mapLookup (mapRemove m k) k = none := by
  induction m with
  | nil => simp [mapRemove, mapLookup]
  | cons hd tl ih =>
    obtain ⟨k2, v2⟩ := hd
    by_cases h : k2 = k
    · simpa [mapRemove, h] using ih
    · simp [mapRemove, h, mapLookup, ih]

theorem mapLookup_remove_ne {κ α : Type} [DecidableEq κ] (m : List (κ × α)) (k k2 : κ)
    (h : k ≠ k2) : mapLookup (mapRemove m k) k2 = mapLookup m k2 := by
  induction m with
  | nil => simp [mapRemove]
  | cons hd tl ih =>
    obtain ⟨k3, v3⟩ := hd
    by_cases h3 : k3 = k
    · subst h3
      simp [mapRemove, mapLookup, h, ih]
    · simp only [mapRemove, if_neg h3, mapLookup]
      by_cases h4 : k3 = k2
      · simp [h4]
      · simp [h4, ih]

theorem mapLookup_remove_none {κ α : Type} [DecidableEq κ] (m : List (κ × α)) (k k2 : κ)
    (h : mapLookup m k2 = none) : mapLookup (mapRemove m k) k2 = none := by
  by_cases hk : k = k2
  · subst hk
    exact mapLookup_remove_self m k
  · rw [mapLookup_remove_ne m k k2 hk]
    exact h

theorem mapLookup_insert_none {κ α : Type} [DecidableEq κ] (m : List (κ × α)) (k k2 : κ) (v : α)
    (h : mapLookup m k2 = none) (hne : k ≠ k2) :
    mapLookup (mapInsert m k v) k2 = none := by
  rw [mapLookup_insert_ne m k k2 v hne]
  exact h

/-! ## Protocol constants

`src/src/cross_domain/mod.rs` imports these from
`cross_domain::cross_domain_protocol`, a module whose source file is not part
of the staged repository files.  They are modelled from the spec (§6 wire
format; §3 identifier spaces; §4.3 waitset connection-id ranges). -/

/-- Modelled from the spec: command tag for INIT. -/
def CROSS_DOMAIN_CMD_INIT : Nat := 1

/-- Modelled from the spec: command tag for GET_IMAGE_REQUIREMENTS. -/
def CROSS_DOMAIN_CMD_GET_IMAGE_REQUIREMENTS : Nat := 2

/-- Modelled from the spec: command tag for POLL. -/
def CROSS_DOMAIN_CMD_POLL : Nat := 3

/-- Modelled from the spec: command tag for SEND. -/
def CROSS_DOMAIN_CMD_SEND : Nat := 4

/-- Modelled from the spec: command tag for the host-written RECEIVE record. -/
def CROSS_DOMAIN_CMD_RECEIVE : Nat := 5

/-- Modelled from the spec: command tag for the host-written READ record. -/
def CROSS_DOMAIN_CMD_READ : Nat := 6

/-- Modelled from the spec: command tag for WRITE. -/
def CROSS_DOMAIN_CMD_WRITE : Nat := 7

/-- Modelled from the spec: command tag for FUTEX_NEW. -/
def CROSS_DOMAIN_CMD_FUTEX_NEW : Nat := 8

/-- Modelled from the spec: command tag for FUTEX_SIGNAL. -/
def CROSS_DOMAIN_CMD_FUTEX_SIGNAL : Nat := 9

/-- Modelled from the spec: command tag for FUTEX_DESTROY. -/
def CROSS_DOMAIN_CMD_FUTEX_DESTROY : Nat := 10

/-- Modelled from the spec: first identifier of the read-pipe numeric space
(read-pipe ids are `>= CROSS_DOMAIN_PIPE_READ_START`; it strictly exceeds the
futex space). -/
def CROSS_DOMAIN_PIPE_READ_START : Nat := 2147483648

/-- Modelled from the spec: first identifier of the futex numeric space
(futex event connection-ids lie in `FUTEX_START..PIPE_READ_START`). -/
def CROSS_DOMAIN_FUTEX_START : Nat := 1073741824

/-- Modelled from the spec: protocol bound on identifiers per SEND/RECEIVE. -/
def CROSS_DOMAIN_MAX_IDENTIFIERS : Nat := 28

/-- Modelled from the spec: identifier type tag for guest blob resources. -/
def CROSS_DOMAIN_ID_TYPE_VIRTGPU_BLOB : Nat := 1

/-- Modelled from the spec: identifier type tag for read pipes. -/
def CROSS_DOMAIN_ID_TYPE_READ_PIPE : Nat := 2

/-- Modelled from the spec: identifier type tag for write pipes. -/
def CROSS_DOMAIN_ID_TYPE_WRITE_PIPE : Nat := 3

/-- Modelled from the spec: ring index of the query ring in fences. -/
def CROSS_DOMAIN_QUERY_RING : Nat := 0

/-- Modelled from the spec: ring index of the channel ring in fences. -/
def CROSS_DOMAIN_CHANNEL_RING : Nat := 1

/-- Modelled from the spec: blob memory kind for guest-backed blobs
(`rutabaga_utils` is not among the staged repository files). -/
def RUTABAGA_BLOB_MEM_GUEST : Nat := 1

/-- Modelled from the spec: blob flag requesting a mappable blob. -/
def RUTABAGA_BLOB_FLAG_USE_MAPPABLE : Nat := 1

/-- Modelled from the spec: cached map-info bit. -/
def RUTABAGA_MAP_CACHE_CACHED : Nat := 1

/-- Modelled from the spec: read-access map-info bits. -/
def RUTABAGA_MAP_ACCESS_READ : Nat := 4

/-- Modelled from the spec: read-write-access map-info bits. -/
def RUTABAGA_MAP_ACCESS_RW : Nat := 12

/-- Modelled from the spec: handle type tag for shared-memory handles
(`mesa3d_util` constant). -/
def MESA_HANDLE_TYPE_MEM_SHM : Nat := 1

/-- Modelled from the spec: handle type tag for dma-buf handles. -/
def MESA_HANDLE_TYPE_MEM_DMABUF : Nat := 2

/-- Modelled from the spec: discriminant of the cross-domain component in
`RutabagaComponentType` (used for `component_mask`). -/
def RutabagaComponentType_CrossDomain : Nat := 2

/-- `u32` modulus. -/
def U32_MOD : Nat := 4294967296

/-! ## Error model (`RutabagaError` / `MesaError`, collapsed into one type;
`rutabaga_utils` is not among the staged files, the variants are those the
cross-domain code constructs and the spec's §7 list). -/

inductive RutabagaError where
  | InvalidCommandBuffer
  | InvalidCommandSize (size : Nat)
  | InvalidResourceId
  | InvalidIovec
  | InvalidCrossDomainChannel
  | InvalidCrossDomainState
  | InvalidCrossDomainItemId
  | InvalidCrossDomainItemType
  | AlreadyInUse
  | Unsupported
  | InvalidMesaHandle
  | IoError
  | TryFromIntError
  | WithContext (msg : String)
  deriving Repr, DecidableEq

/-! ## Data model -/

/-- `mesa3d_util::MesaHandle`: an OS handle plus its type tag.  The handle is
a numeric token. -/
structure MesaHandle where
  os_handle : Nat
  handle_type : Nat
  deriving Repr, DecidableEq

/-- `crate::handle::RutabagaHandle` (src/src/handle.rs). -/
inductive RutabagaHandle where
  | MesaHandle (h : MesaHandle)
  | AhbInfo (metadata : List Nat)
  deriving Repr, DecidableEq

/-- `RutabagaHandle::as_mesa_handle` (src/src/handle.rs). -/
def as_mesa_handle : RutabagaHandle → Option MesaHandle
  | .MesaHandle h => some h
  | .AhbInfo _ => none

/-- `ImageAllocationInfo` fields used by the cross-domain code. -/
structure ImageAllocationInfo where
  width : Nat
  height : Nat
  drm_format : Nat
  flags : Nat
  deriving Repr, DecidableEq

/-- Vulkan-specific allocation info (only `memory_idx` is read). -/
structure VulkanInfo where
  memory_idx : Nat
  deriving Repr, DecidableEq

/-- `ImageMemoryRequirements` fields used by the cross-domain code. -/
structure ImageMemoryRequirements where
  info : ImageAllocationInfo
  strides : List Nat
  offsets : List Nat
  modifier : Nat
  size : Nat
  map_info : Nat
  vulkan_info : Option VulkanInfo
  deriving Repr, DecidableEq

/-- `CrossDomainItem` (src/src/cross_domain/mod.rs).  Pipe ends are numeric
tokens. -/
inductive CrossDomainItem where
  | ImageRequirements (reqs : ImageMemoryRequirements)
  | Blob (hnd : MesaHandle)
  | WaylandReadPipe (pipe : Nat)
  | WaylandWritePipe (pipe : Nat)
  deriving Repr, DecidableEq

/-- `CrossDomainItems`: the item table with its two id counters. -/
structure CrossDomainItems where
  descriptor_id : Nat
  read_pipe_id : Nat
  table : List (Nat × CrossDomainItem)
  deriving Repr, DecidableEq

/-- `impl Default for CrossDomainItems` (src/src/cross_domain/mod.rs:278). -/
def crossDomainItemsDefault : CrossDomainItems :=
  { descriptor_id := 1
    read_pipe_id := CROSS_DOMAIN_PIPE_READ_START
    table := [] }

/-- `add_item` (src/src/cross_domain/mod.rs:259): allocates the item's id and
inserts it.  `u32` increments wrap at `2^32`. -/
def add_item (items : CrossDomainItems) (item : CrossDomainItem) : Nat × CrossDomainItems :=
  match item with
  | .WaylandReadPipe _ =>
    let rid := (items.read_pipe_id + 1) % U32_MOD
    let item_id := max rid CROSS_DOMAIN_PIPE_READ_START
    (item_id, { items with read_pipe_id := rid, table := mapInsert items.table item_id item })
  | _ =>
    let did := (items.descriptor_id + 1) % U32_MOD
    (did, { items with descriptor_id := did, table := mapInsert items.table did item })

/-! ## C1: identifier allocation over insertion sequences -/

/-- Which id counter an item draws from: read pipes use the read-pipe
counter, everything else (`ImageRequirements`, `Blob`, `WaylandWritePipe`)
the descriptor counter — the wildcard arm of `add_item`. -/
def usesReadPipeCounter : CrossDomainItem → Bool
  | .WaylandReadPipe _ => true
  | _ => false

/-- The ids `add_item` hands out for a sequence of insertions, each tagged
with the counter it was drawn from (`true` = read-pipe). -/
def allocIds (items : CrossDomainItems) : List CrossDomainItem → List (Bool × Nat)
  | [] => []
  | i :: rest =>
    let r := add_item items i
    (usesReadPipeCounter i, r.1) :: allocIds r.2 rest

/-- The descriptor-counter ids of a tagged trace, in order. -/
def descIds (tr : List (Bool × Nat)) : List Nat :=
  (tr.filter (fun p => !p.1)).map Prod.snd

/-- The read-pipe ids of a tagged trace, in order. -/
def pipeIds (tr : List (Bool × Nat)) : List Nat :=
  (tr.filter (fun p => p.1)).map Prod.snd

/-- Number of descriptor-counter insertions in a sequence. -/
def countDesc (L : List CrossDomainItem) : Nat :=
  (L.filter (fun i => !usesReadPipeCounter i)).length

/-- Number of read-pipe insertions in a sequence. -/
def countPipe (L : List CrossDomainItem) : Nat :=
  (L.filter (fun i => usesReadPipeCounter i)).length

theorem descIds_cons_true (x : Nat) (tr : List (Bool × Nat)) :
    descIds ((true, x) :: tr) = descIds tr := by
  simp [descIds]

theorem descIds_cons_false (x : Nat) (tr : List (Bool × Nat)) :
    descIds ((false, x) :: tr) = x :: descIds tr := by
  simp [descIds]

theorem pipeIds_cons_true (x : Nat) (tr : List (Bool × Nat)) :
    pipeIds ((true, x) :: tr) = x :: pipeIds tr := by
  simp [pipeIds]

theorem pipeIds_cons_false (x : Nat) (tr : List (Bool × Nat)) :
    pipeIds ((false, x) :: tr) = pipeIds tr := by
  simp [pipeIds]

theorem allocIds_trace (L : List CrossDomainItem) :
    ∀ d r t, d + countDesc L < U32_MOD → CROSS_DOMAIN_PIPE_READ_START ≤ r →
    r + countPipe L < U32_MOD →
    descIds (allocIds ⟨d, r, t⟩ L) = List.range' (d + 1) (countDesc L) ∧
    pipeIds (allocIds ⟨d, r, t⟩ L) = List.range' (r + 1) (countPipe L) := by
  induction L with
  | nil => simp [allocIds, descIds, pipeIds, countDesc, countPipe]
  | cons i rest ih =>
    intro d r t hd hr hp
    by_cases hi : usesReadPipeCounter i = true
    · have hcd : countDesc (i :: rest) = countDesc rest := by
        simp [countDesc, hi]
      have hcp : countPipe (i :: rest) = countPipe rest + 1 := by
        simp [countPipe, List.filter, hi]
      rw [hcd] at hd
      rw [hcp] at hp
      obtain ⟨p, hpe⟩ :=
        (by cases i <;> simp [usesReadPipeCounter] at hi ⊢ :
          ∃ p : Nat, i = CrossDomainItem.WaylandReadPipe p)
      subst hpe
      have hrmod : (r + 1) % U32_MOD = r + 1 := Nat.mod_eq_of_lt (by omega)
      have hmax : max (r + 1) CROSS_DOMAIN_PIPE_READ_START = r + 1 :=
        Nat.max_eq_left (by omega)
      have hrec := ih d (r + 1)
        (mapInsert t (r + 1) (CrossDomainItem.WaylandReadPipe p)) (by omega) (by omega) (by omega)
      simp only [allocIds, add_item, hrmod, hmax, usesReadPipeCounter]
      constructor
      · rw [hcd, descIds_cons_true]
        exact hrec.1
      · rw [hcp, pipeIds_cons_true, hrec.2, List.range'_succ (r + 1) (countPipe rest) 1]
    · have hib : usesReadPipeCounter i = false := by
        simpa using hi
      have hcd : countDesc (i :: rest) = countDesc rest + 1 := by
        simp [countDesc, List.filter, hib]
      have hcp : countPipe (i :: rest) = countPipe rest := by
        simp [countPipe, hib]
      rw [hcd] at hd
      rw [hcp] at hp
      have hdmod : (d + 1) % U32_MOD = d + 1 := Nat.mod_eq_of_lt (by omega)
      have hadd : add_item ⟨d, r, t⟩ i =
          ((d + 1) % U32_MOD,
            ⟨(d + 1) % U32_MOD, r, mapInsert t ((d + 1) % U32_MOD) i⟩) := by
        cases i <;> simp_all [add_item, usesReadPipeCounter]
      have hrec := ih (d + 1) r (mapInsert t ((d + 1) % U32_MOD) i) (by omega) hr (by omega)
      simp only [allocIds, hadd, hdmod, hib]
      rw [hdmod] at hrec
      constructor
      · rw [hcd, descIds_cons_false, hrec.1, List.range'_succ (d + 1) (countDesc rest) 1]
      · rw [hcp, pipeIds_cons_false]
        exact hrec.2

/-- Claim C1, counterexample: from the default item table, the first two
descriptor-counter insertions receive identifiers 2 and 3 — the first
descriptor id is 2, not 1, and 2 is even, refuting "odd identifiers starting
at 1" (`CrossDomainItems::default` starts the counter at 1 and `add_item`
pre-increments, so ids run 2, 3, 4, …). -/
theorem C1_claim_false :
    descIds (allocIds crossDomainItemsDefault
      [CrossDomainItem.Blob ⟨0, 0⟩, CrossDomainItem.Blob ⟨0, 0⟩]) = [2, 3] ∧
    ¬ (2 % 2 = 1 ∧ (2 : Nat) = 1) := by
  constructor
  · rfl
  · decide

/-- Claim C1 (amended): for every insertion sequence that does not exhaust the
counter ranges, descriptor items (ImageRequirements, Blob, WaylandWritePipe)
receive consecutive identifiers 2, 3, 4, … — incrementing by 1 per insertion,
monotonically increasing; read-pipe items receive identifiers
`PIPE_READ_START + 1, PIPE_READ_START + 2, …`, all `≥ PIPE_READ_START` and
strictly increasing; descriptor ids stay below the futex space
`[FUTEX_START, PIPE_READ_START)` and read-pipe ids above it, so the three id
spaces are pairwise disjoint. -/
theorem C1_item_id_allocation (L : List CrossDomainItem)
    (hdn : countDesc L + 2 ≤ CROSS_DOMAIN_FUTEX_START)
    (hpn : CROSS_DOMAIN_PIPE_READ_START + countPipe L < U32_MOD) :
    descIds (allocIds crossDomainItemsDefault L) = List.range' 2 (countDesc L) ∧
    pipeIds (allocIds crossDomainItemsDefault L) =
      List.range' (CROSS_DOMAIN_PIPE_READ_START + 1) (countPipe L) ∧
    (∀ x ∈ descIds (allocIds crossDomainItemsDefault L),
      2 ≤ x ∧ x < CROSS_DOMAIN_FUTEX_START) ∧
    (∀ y ∈ pipeIds (allocIds crossDomainItemsDefault L),
      CROSS_DOMAIN_PIPE_READ_START < y) := by
  have hc1 : CROSS_DOMAIN_FUTEX_START = 1073741824 := rfl
  have hc2 : CROSS_DOMAIN_PIPE_READ_START = 2147483648 := rfl
  have hc3 : U32_MOD = 4294967296 := rfl
  have htr := allocIds_trace L 1 CROSS_DOMAIN_PIPE_READ_START []
    (by omega) (le_refl _) hpn
  have hdefault : crossDomainItemsDefault =
      (⟨1, CROSS_DOMAIN_PIPE_READ_START, []⟩ : CrossDomainItems) := rfl
  rw [hdefault]
  refine ⟨htr.1, htr.2, ?_, ?_⟩
  · intro x hx
    rw [htr.1] at hx
    rw [List.mem_range'] at hx
    obtain ⟨i, hi, hxe⟩ := hx
    omega
  · intro y hy
    rw [htr.2] at hy
    rw [List.mem_range'] at hy
    obtain ⟨i, hi, hye⟩ := hy
    omega

/-- Concrete insertion sequence for the C1 witness. -/
def C1_L : List CrossDomainItem :=
  [CrossDomainItem.Blob ⟨4, MESA_HANDLE_TYPE_MEM_SHM⟩,
   CrossDomainItem.WaylandWritePipe 9,
   CrossDomainItem.WaylandReadPipe 10,
   CrossDomainItem.ImageRequirements
     ⟨⟨64, 64, 875713089, 0⟩, [256, 0, 0, 0], [0, 0, 0, 0], 0, 16384, 1, none⟩]
theorem C1_item_id_allocation_witness :
    countDesc C1_L + 2 ≤ CROSS_DOMAIN_FUTEX_START ∧
    CROSS_DOMAIN_PIPE_READ_START + countPipe C1_L < U32_MOD ∧
    (descIds (allocIds crossDomainItemsDefault C1_L) = List.range' 2 (countDesc C1_L) ∧
     pipeIds (allocIds crossDomainItemsDefault C1_L) =
       List.range' (CROSS_DOMAIN_PIPE_READ_START + 1) (countPipe C1_L) ∧
     (∀ x ∈ descIds (allocIds crossDomainItemsDefault C1_L),
       2 ≤ x ∧ x < CROSS_DOMAIN_FUTEX_START) ∧
     (∀ y ∈ pipeIds (allocIds crossDomainItemsDefault C1_L),
       CROSS_DOMAIN_PIPE_READ_START < y)) :=
  ⟨by decide, by decide, C1_item_id_allocation C1_L (by decide) (by decide)⟩

/-! ## Ring I/O (`CrossDomainState::write_to_ring`, src/src/cross_domain/mod.rs:346) -/

/-- `context_common::ContextResource` (src/src/context_common.rs): an optional
handle plus optional backing iovecs.  Each iovec is its byte list. -/
structure ContextResource where
  handle : Option RutabagaHandle
  backing_iovecs : Option (List (List Nat))
  deriving Repr, DecidableEq

/-- `ContextResources`: guest resource id → resource. -/
def ContextResources : Type := List (Nat × ContextResource)

instance : DecidableEq ContextResources := by
  unfold ContextResources
  infer_instance

/-- The `RingWrite::Write` variant (the pipe-fed variant `WriteFromPipe` is
used only by the worker's READ path, which these properties do not touch):
a command, already serialized to its byte image, plus an optional opaque
payload. -/
structure RingWriteW where
  cmdBytes : List Nat
  opaque_data_opt : Option (List Nat)
  deriving Repr, DecidableEq

/-- `CrossDomainState::write_to_ring` for `RingWrite::Write`: resolves the
ring resource, takes its first iovec as the destination slice, checks room
for the command, copies the command bytes, then (if a payload is present)
checks room for the payload and copies it.  Returns the result together with
the resources map afterwards — the map reflects every byte written before an
error, exactly as the raw-pointer writes in the source do. -/
def write_to_ring (resources : ContextResources) (w : RingWriteW) (ring_id : Nat) :
    Except RutabagaError Nat × ContextResources :=
  match mapLookup resources ring_id with
  | none => (Except.error RutabagaError.InvalidResourceId, resources)
  | some resource =>
    match resource.backing_iovecs with
    | none => (Except.error RutabagaError.InvalidIovec, resources)
    | some iovecs =>
      let slice := iovecs.headD []
      if slice.length < w.cmdBytes.length then
        (Except.error RutabagaError.InvalidIovec, resources)
      else
        let sliceHdr := w.cmdBytes ++ slice.drop w.cmdBytes.length
        let afterHdr := some (sliceHdr :: iovecs.drop 1)
        match w.opaque_data_opt with
        | none =>
          (Except.ok 0,
            mapInsert resources ring_id { resource with backing_iovecs := afterHdr })
        | some od =>
          if slice.length - w.cmdBytes.length < od.length then
            (Except.error RutabagaError.InvalidIovec,
              mapInsert resources ring_id { resource with backing_iovecs := afterHdr })
          else
            let written := w.cmdBytes ++ od ++ slice.drop (w.cmdBytes.length + od.length)
            let afterBoth := some (written :: iovecs.drop 1)
            (Except.ok 0,
              mapInsert resources ring_id { resource with backing_iovecs := afterBoth })

/-- Claim C2, counterexample: a ring whose only iovec is exactly as long as
the command leaves no payload room; writing a 4-byte command with a 1-byte
payload returns InvalidIovec, yet the ring memory has changed — the command
bytes were copied in before the payload-capacity check. -/
theorem C2_claim_false :
    (write_to_ring [(5, ⟨none, some [[0, 0, 0, 0]]⟩)] ⟨[9, 9, 9, 9], some [7]⟩ 5).fst
        = Except.error RutabagaError.InvalidIovec ∧
    ¬ (write_to_ring [(5, ⟨none, some [[0, 0, 0, 0]]⟩)] ⟨[9, 9, 9, 9], some [7]⟩ 5).snd
        = [(5, ⟨none, some [[0, 0, 0, 0]]⟩)] := by
  constructor
  · rfl
  · decide

/-- Claim C2 (amended): when the opaque payload exceeds the ring capacity
left after the command header, `write_to_ring` returns InvalidIovec; the ring
is not unchanged — its first iovec now begins with the command bytes — but no
payload byte is written: everything past the command header keeps its prior
contents. -/
theorem C2_payload_overflow (resources : ContextResources) (ring_id : Nat)
    (resource : ContextResource) (slice : List Nat) (rest : List (List Nat))
    (cmdBytes od : List Nat)
    (hres : mapLookup resources ring_id = some resource)
    (hiov : resource.backing_iovecs = some (slice :: rest))
    (hroom : cmdBytes.length ≤ slice.length)
    (hover : slice.length - cmdBytes.length < od.length) :
    write_to_ring resources ⟨cmdBytes, some od⟩ ring_id =
      (Except.error RutabagaError.InvalidIovec,
        mapInsert resources ring_id
          { resource with backing_iovecs := some ((cmdBytes ++ slice.drop cmdBytes.length) :: rest) }) := by
  unfold write_to_ring
  simp only [hres, hiov, List.headD_cons, List.drop_succ_cons, List.drop_zero]
  rw [if_neg (by omega), if_pos (by omega)]

theorem C2_payload_overflow_witness :
    mapLookup [(5, (⟨none, some [[1, 2, 3], [9]]⟩ : ContextResource))] 5
        = some ⟨none, some [[1, 2, 3], [9]]⟩ ∧
    (⟨none, some [[1, 2, 3], [9]]⟩ : ContextResource).backing_iovecs
        = some ([1, 2, 3] :: [[9]]) ∧
    [6, 6].length ≤ [1, 2, 3].length ∧
    [1, 2, 3].length - [6, 6].length < [7, 7].length ∧
    write_to_ring [(5, ⟨none, some [[1, 2, 3], [9]]⟩)] ⟨[6, 6], some [7, 7]⟩ 5 =
      (Except.error RutabagaError.InvalidIovec,
        mapInsert [(5, ⟨none, some [[1, 2, 3], [9]]⟩)] 5
          { (⟨none, some [[1, 2, 3], [9]]⟩ : ContextResource) with backing_iovecs := some (([6, 6] ++ [1, 2, 3].drop 2) :: [[9]]) }) :=
  ⟨by decide, by decide, by decide, by decide,
    C2_payload_overflow [(5, ⟨none, some [[1, 2, 3], [9]]⟩)] 5
      ⟨none, some [[1, 2, 3], [9]]⟩ [1, 2, 3] [[9]] [6, 6] [7, 7]
      (by decide) (by decide) (by decide) (by decide)⟩

/-! ## Futex bridge (`CrossDomainFutex`, src/src/cross_domain/mod.rs:150) -/

/-- `CrossDomainFutex`: the mapped 4-byte word (its current u32 value), the
retained descriptor, and the watcher-thread state.  `watcher_joined` records
that `join()` on the watcher thread has returned, `unmapped` that `munmap`
has run — both effects of the source that a theorem needs to observe. -/
structure CrossDomainFutex where
  word : Nat
  handle : Nat
  watcher_joined : Bool
  shutdown : Bool
  unmapped : Bool
  evt : Nat
  deriving Repr, DecidableEq

/-- `CrossDomainFutex::shutdown` (mod.rs:201): store the shutdown flag, flip
the word to its bitwise complement (a value different from whatever it held),
wake all waiters, and join the watcher thread.  The wake itself has no state
beyond the word; the join is recorded in `watcher_joined`.  No unmapping
happens here. -/
def CrossDomainFutex.shutdownOp (f : CrossDomainFutex) : CrossDomainFutex :=
  { f with
      shutdown := true
      word := 4294967295 - f.word % U32_MOD
      watcher_joined := true }

/-- `CrossDomainFutex::is_shutdown` (mod.rs:210). -/
def CrossDomainFutex.is_shutdown (f : CrossDomainFutex) : Bool :=
  f.shutdown

/-- `impl Drop for CrossDomainFutex` (mod.rs:216): shut down first if that
has not happened, then `munmap` the 4-byte mapping. -/
def CrossDomainFutex.dropOp (f : CrossDomainFutex) : CrossDomainFutex :=
  let f1 := if f.is_shutdown then f else f.shutdownOp
  { f1 with unmapped := true }

/-- The futex table (`CrossDomainFutexes`). -/
def CrossDomainFutexes : Type := List (Nat × CrossDomainFutex)

instance : DecidableEq CrossDomainFutexes := by
  unfold CrossDomainFutexes
  infer_instance

/-- `CrossDomainContext::futex_destroy` (mod.rs:925): look the futex up in
the table and run its `shutdown`; absent ids give InvalidCrossDomainItemId.
The table entry itself is not removed here (the worker removes it when it
later observes the shutdown through the waitset). -/
def futex_destroy_locked (futexes : CrossDomainFutexes) (id : Nat) :
    Except RutabagaError Unit × CrossDomainFutexes :=
  match mapLookup futexes id with
  | none => (Except.error RutabagaError.InvalidCrossDomainItemId, futexes)
  | some f => (Except.ok (), mapInsert futexes id f.shutdownOp)

/-- A live futex as `futex_new` installs it: word as mapped, watcher running,
not shut down, mapping live. -/
def freshFutex (word handle evt : Nat) : CrossDomainFutex :=
  { word := word
    handle := handle
    watcher_joined := false
    shutdown := false
    unmapped := false
    evt := evt }

/-- Claim C3, counterexample: destroy the only futex of a concrete table;
the handler returns Ok and the watcher is joined, but the 4-byte mapping has
not been unmapped when the handler returns — `munmap` runs only in the
`Drop` implementation, which `futex_destroy` never invokes (the entry is
still in the table). -/
theorem C3_claim_false :
    (futex_destroy_locked [(1, freshFutex 17 3 0)] 1).fst = Except.ok () ∧
    (mapLookup (futex_destroy_locked [(1, freshFutex 17 3 0)] 1).snd 1).map
        CrossDomainFutex.watcher_joined = some true ∧
    ¬ (mapLookup (futex_destroy_locked [(1, freshFutex 17 3 0)] 1).snd 1).map
        CrossDomainFutex.unmapped = some true := by
  refine ⟨rfl, rfl, ?_⟩
  decide

/-- Claim C3 (amended): after `FUTEX_DESTROY` returns to the guest the
futex's watcher thread has been joined, but the 4-byte mapping is unmapped
only later, when the (still present) table entry is dropped — by the worker
after it observes the shutdown, or at context teardown; dropping the entry
does unmap it. -/
theorem C3_futex_destroy_joins (futexes : CrossDomainFutexes) (id : Nat)
    (f : CrossDomainFutex) (hf : mapLookup futexes id = some f) :
    (futex_destroy_locked futexes id).fst = Except.ok () ∧
    mapLookup (futex_destroy_locked futexes id).snd id = some f.shutdownOp ∧
    f.shutdownOp.watcher_joined = true ∧
    f.shutdownOp.unmapped = f.unmapped ∧
    f.shutdownOp.dropOp.unmapped = true := by
  unfold futex_destroy_locked
  rw [hf]
  refine ⟨rfl, mapLookup_insert_self futexes id f.shutdownOp, rfl, rfl, ?_⟩
  simp [CrossDomainFutex.dropOp, CrossDomainFutex.shutdownOp, CrossDomainFutex.is_shutdown]

theorem C3_futex_destroy_joins_witness :
    mapLookup [(1, freshFutex 17 3 0)] 1 = some (freshFutex 17 3 0) ∧
    ((futex_destroy_locked [(1, freshFutex 17 3 0)] 1).fst = Except.ok () ∧
     mapLookup (futex_destroy_locked [(1, freshFutex 17 3 0)] 1).snd 1
        = some (freshFutex 17 3 0).shutdownOp ∧
     (freshFutex 17 3 0).shutdownOp.watcher_joined = true ∧
     (freshFutex 17 3 0).shutdownOp.unmapped = (freshFutex 17 3 0).unmapped ∧
     (freshFutex 17 3 0).shutdownOp.dropOp.unmapped = true) :=
  ⟨by decide, C3_futex_destroy_joins [(1, freshFutex 17 3 0)] 1 (freshFutex 17 3 0) (by decide)⟩

/-! ## Wire structures

Modelled from the spec §6 (the protocol module's source file is absent from
the staged repository): every command starts with `{cmd:u32, cmd_size:u32}`;
the INIT body is `query_ring_id, channel_ring_id, channel_type` (legacy: no
`channel_ring_id`). -/

structure CrossDomainHeader where
  cmd : Nat
  cmd_size : Nat
  deriving Repr, DecidableEq

structure CrossDomainInit where
  hdr : CrossDomainHeader
  query_ring_id : Nat
  channel_ring_id : Nat
  channel_type : Nat
  deriving Repr, DecidableEq

/-- `CrossDomainInitLegacy` (src/src/cross_domain/mod.rs:1067). -/
structure CrossDomainInitLegacy where
  hdr : CrossDomainHeader
  query_ring_id : Nat
  channel_type : Nat
  deriving Repr, DecidableEq

structure CrossDomainGetImageRequirements where
  hdr : CrossDomainHeader
  width : Nat
  height : Nat
  drm_format : Nat
  flags : Nat
  deriving Repr, DecidableEq

structure CrossDomainImageRequirements where
  strides : List Nat
  offsets : List Nat
  modifier : Nat
  size : Nat
  blob_id : Nat
  map_info : Nat
  memory_idx : Int
  physical_device_idx : Int
  deriving Repr, DecidableEq

structure CrossDomainSendReceive where
  hdr : CrossDomainHeader
  num_identifiers : Nat
  opaque_data_size : Nat
  identifiers : List Nat
  identifier_types : List Nat
  identifier_sizes : List Nat
  deriving Repr, DecidableEq

structure CrossDomainReadWrite where
  hdr : CrossDomainHeader
  identifier : Nat
  hang_up : Nat
  opaque_data_size : Nat
  pad : Nat
  deriving Repr, DecidableEq

structure CrossDomainFutexNew where
  hdr : CrossDomainHeader
  id : Nat
  fs_id : Nat
  handle : Nat
  deriving Repr, DecidableEq

structure CrossDomainFutexSignal where
  hdr : CrossDomainHeader
  id : Nat
  deriving Repr, DecidableEq

structure CrossDomainFutexDestroy where
  hdr : CrossDomainHeader
  id : Nat
  deriving Repr, DecidableEq

/-- Little-endian image of a u32. -/
def u32ToBytes (n : Nat) : List Nat :=
  [n % 256, n / 256 % 256, n / 65536 % 256, n / 16777216 % 256]

/-- Little-endian image of a u64. -/
def u64ToBytes (n : Nat) : List Nat :=
  u32ToBytes (n % U32_MOD) ++ u32ToBytes (n / U32_MOD % U32_MOD)

/-- Little-endian image of an i32 (two's complement). -/
def i32ToBytes (i : Int) : List Nat :=
  u32ToBytes (i % (U32_MOD : Int)).toNat

/-- `zerocopy` byte image of `CrossDomainImageRequirements` (the response the
GET_IMAGE_REQUIREMENTS handler writes into the query ring). -/
def imageRequirementsBytes (r : CrossDomainImageRequirements) : List Nat :=
  (r.strides.map u32ToBytes).flatten ++ (r.offsets.map u32ToBytes).flatten ++
    u64ToBytes r.modifier ++ u64ToBytes r.size ++ u32ToBytes r.blob_id ++
    u32ToBytes r.map_info ++ i32ToBytes r.memory_idx ++ i32ToBytes r.physical_device_idx

/-! ## Per-context state -/

/-- `RutabagaFence` fields used here. -/
structure RutabagaFence where
  flags : Nat
  fence_id : Nat
  ctx_id : Nat
  ring_idx : Nat
  deriving Repr, DecidableEq

/-- `CrossDomainJob` (src/src/cross_domain/mod.rs:104). -/
inductive CrossDomainJob where
  | HandleFence (fence : RutabagaFence)
  | AddReadPipe (id : Nat)
  | Finish
  | AddFutex (id : Nat) (evt : Nat)
  deriving Repr, DecidableEq

/-- `RutabagaPath`: a permitted channel path (the path itself is a token). -/
structure RutabagaPath where
  path_type : Nat
  path : Nat
  deriving Repr, DecidableEq

/-- `CrossDomainState` (src/src/cross_domain/mod.rs:127).  In the source it
also shares `context_resources` and `futexes` with the context through `Arc`;
the model keeps that shared data in the context record and passes it
explicitly.  `sent_msgs` logs each `send_msg` (opaque bytes, attached
descriptor tokens) so a theorem can observe socket traffic. -/
structure CrossDomainState where
  query_ring_id : Nat
  channel_ring_id : Nat
  connection : Option Nat
  jobs : List CrossDomainJob
  sent_msgs : List (List Nat × List Nat)
  deriving Repr, DecidableEq

/-- The gralloc capability (`RutabagaGralloc`), as the two calls the
cross-domain code makes of it. -/
structure RutabagaGralloc where
  reqsFn : ImageAllocationInfo → Except RutabagaError ImageMemoryRequirements
  allocFn : ImageMemoryRequirements → Except RutabagaError MesaHandle

/-- `VirtioFsTable`: `(fs_id, handle) → (descriptor token, initial mapped
word)`; the second component models the u32 the 4-byte `mmap` exposes. -/
def VirtioFsTable : Type := List ((Nat × Nat) × (Nat × Nat))

/-- `CrossDomainContext` (src/src/cross_domain/mod.rs:233).  `worker_spawned`
records that the worker thread was started; `resample_evt` / `kill_evt` count
signals on those events; `next_pipe` models `create_pipe`, handing out fresh
pipe tokens in pairs; `fences_signaled` logs `fence_handler.call`;
`pipe_writes` logs `WritePipe::write`. -/
structure CrossDomainContext where
  paths : Option (List RutabagaPath)
  gralloc : RutabagaGralloc
  state : Option CrossDomainState
  context_resources : ContextResources
  item_state : CrossDomainItems
  futexes : CrossDomainFutexes
  worker_spawned : Bool
  resample_evt : Option Nat
  kill_evt : Option Nat
  virtiofs_table : Option VirtioFsTable
  next_pipe : Nat
  fences_signaled : List RutabagaFence
  pipe_writes : List (Nat × List Nat)

/-- `CrossDomainContext::get_connection` (mod.rs:673): `paths.take()` leaves
`None` behind even on success; the first path whose type matches is opened
(`Tube::new` is modelled as succeeding, the connection is the path token). -/
def CrossDomainContext.get_connection (ctx : CrossDomainContext) (cmd_init : CrossDomainInit) :
    Except RutabagaError Nat × CrossDomainContext :=
  match ctx.paths with
  | none => (Except.error RutabagaError.InvalidCrossDomainChannel, ctx)
  | some paths =>
    let ctx1 := { ctx with paths := none }
    match paths.find? (fun p => p.path_type == cmd_init.channel_type) with
    | none => (Except.error RutabagaError.InvalidCrossDomainChannel, ctx1)
    | some p => (Except.ok p.path, ctx1)

/-- `CrossDomainContext::initialize` (mod.rs:688): validate the query ring;
for a nonzero channel type validate the channel ring, open the connection,
create the events and spawn the worker; otherwise only allocate the shared
state. -/
def CrossDomainContext.initCtx (ctx : CrossDomainContext) (cmd_init : CrossDomainInit) :
    Except RutabagaError Unit × CrossDomainContext :=
  if mapContains ctx.context_resources cmd_init.query_ring_id = false then
    (Except.error RutabagaError.InvalidResourceId, ctx)
  else if cmd_init.channel_type ≠ 0 then
    if mapContains ctx.context_resources cmd_init.channel_ring_id = false then
      (Except.error RutabagaError.InvalidResourceId, ctx)
    else
      match CrossDomainContext.get_connection ctx cmd_init with
      | (Except.error e, ctx1) => (Except.error e, ctx1)
      | (Except.ok conn, ctx1) =>
        let st : CrossDomainState :=
          { query_ring_id := cmd_init.query_ring_id
            channel_ring_id := cmd_init.channel_ring_id
            connection := some conn
            jobs := []
            sent_msgs := [] }
        (Except.ok (),
          { ctx1 with
              state := some st
              worker_spawned := true
              resample_evt := some 0
              kill_evt := some 0 })
  else
    let st : CrossDomainState :=
      { query_ring_id := cmd_init.query_ring_id
        channel_ring_id := cmd_init.channel_ring_id
        connection := none
        jobs := []
        sent_msgs := [] }
    (Except.ok (), { ctx with state := some st })

/-- `CrossDomainContext::get_image_requirements` (mod.rs:769): query gralloc,
store the requirements as an item, write the response into the query ring;
InvalidCrossDomainState before INIT. -/
def CrossDomainContext.get_image_requirements (ctx : CrossDomainContext)
    (cmd_get_reqs : CrossDomainGetImageRequirements) :
    Except RutabagaError Unit × CrossDomainContext :=
  let info : ImageAllocationInfo :=
    { width := cmd_get_reqs.width
      height := cmd_get_reqs.height
      drm_format := cmd_get_reqs.drm_format
      flags := cmd_get_reqs.flags }
  match ctx.gralloc.reqsFn info with
  | Except.error e => (Except.error e, ctx)
  | Except.ok reqs =>
    let response0 : CrossDomainImageRequirements :=
      { strides := reqs.strides
        offsets := reqs.offsets
        modifier := reqs.modifier
        size := reqs.size
        blob_id := 0
        map_info := reqs.map_info
        memory_idx := -1
        physical_device_idx := -1 }
    let response1 :=
      match reqs.vulkan_info with
      | some vk => { response0 with memory_idx := (vk.memory_idx : Int), physical_device_idx := -1 }
      | none => response0
    match ctx.state with
    | some st =>
      let r := add_item ctx.item_state (CrossDomainItem.ImageRequirements reqs)
      let response := { response1 with blob_id := r.fst }
      let wr := write_to_ring ctx.context_resources ⟨imageRequirementsBytes response, none⟩
        st.query_ring_id
      match wr.fst with
      | Except.error e =>
        (Except.error e, { ctx with item_state := r.snd, context_resources := wr.snd })
      | Except.ok _ =>
        (Except.ok (), { ctx with item_state := r.snd, context_resources := wr.snd })
    | none => (Except.error RutabagaError.InvalidCrossDomainState, ctx)

/-- The identifier loop of `CrossDomainContext::send` (mod.rs:837): walks the
`(identifier, identifier_type)` pairs, duplicating blob descriptors and
creating at most one pipe pair whose read end is installed as an item; the
guest's pre-guessed identifier must match the allocated one.  Returns the
loop's result together with the item table and pipe counter afterwards —
mutations before an error persist, as they do through the `Arc` in the
source. -/
def sendCollect (resources : ContextResources) (items : CrossDomainItems) (next_pipe : Nat)
    (descriptors : List Nat) (write_pipe_opt read_pipe_id_opt : Option Nat) :
    List (Nat × Nat) →
      Except RutabagaError (List Nat × Option Nat × Option Nat) × CrossDomainItems × Nat
  | [] => (Except.ok (descriptors, write_pipe_opt, read_pipe_id_opt), items, next_pipe)
  | (identifier, identifier_type) :: rest =>
    if identifier_type = CROSS_DOMAIN_ID_TYPE_VIRTGPU_BLOB then
      match mapLookup resources identifier with
      | none => (Except.error RutabagaError.InvalidResourceId, items, next_pipe)
      | some cr =>
        match cr.handle.bind as_mesa_handle with
        | some mh =>
          sendCollect resources items next_pipe (descriptors ++ [mh.os_handle])
            write_pipe_opt read_pipe_id_opt rest
        | none => (Except.error RutabagaError.InvalidMesaHandle, items, next_pipe)
    else if identifier_type = CROSS_DOMAIN_ID_TYPE_READ_PIPE then
      if write_pipe_opt.isSome then
        (Except.error (RutabagaError.WithContext ("expected just one pipe pair")),
          items, next_pipe)
      else
        let read_pipe := next_pipe
        let write_pipe := next_pipe + 1
        let r := add_item items (CrossDomainItem.WaylandReadPipe read_pipe)
        if r.fst ≠ identifier then
          (Except.error RutabagaError.InvalidCrossDomainItemId, r.snd, next_pipe + 2)
        else
          sendCollect resources r.snd (next_pipe + 2) (descriptors ++ [write_pipe])
            (some write_pipe) (some r.fst) rest
    else
      (Except.error RutabagaError.InvalidCrossDomainItemType, items, next_pipe)

/-- `CrossDomainContext::send` (mod.rs:813): reject more than
MAX_IDENTIFIERS before anything else, run the identifier loop, transmit the
message, then (when a read pipe was created) enqueue AddReadPipe and signal
the resample event. -/
def CrossDomainContext.send (ctx : CrossDomainContext) (cmd_send : CrossDomainSendReceive)
    (opaque_data : List Nat) : Except RutabagaError Unit × CrossDomainContext :=
  let num := cmd_send.num_identifiers
  if num > CROSS_DOMAIN_MAX_IDENTIFIERS then
    (Except.error (RutabagaError.WithContext ("max cross domain identifiers exceeded")), ctx)
  else
    let pairs := (cmd_send.identifiers.zip cmd_send.identifier_types).take num
    match sendCollect ctx.context_resources ctx.item_state ctx.next_pipe [] none none pairs with
    | (Except.error e, items1, np1) =>
      (Except.error e, { ctx with item_state := items1, next_pipe := np1 })
    | (Except.ok (descriptors, _wpo, rpio), items1, np1) =>
      let ctx1 := { ctx with item_state := items1, next_pipe := np1 }
      match ctx.state, ctx.resample_evt with
      | some st, some rc =>
        match st.connection with
        | none => (Except.error RutabagaError.InvalidCrossDomainChannel, ctx1)
        | some _ =>
          let st1 := { st with sent_msgs := st.sent_msgs ++ [(opaque_data, descriptors)] }
          match rpio with
          | some rpid =>
            let st2 := { st1 with jobs := st1.jobs ++ [CrossDomainJob.AddReadPipe rpid] }
            (Except.ok (), { ctx1 with state := some st2, resample_evt := some (rc + 1) })
          | none => (Except.ok (), { ctx1 with state := some st1 })
      | _, _ => (Except.error RutabagaError.InvalidCrossDomainState, ctx1)

/-- `CrossDomainContext::write` (mod.rs:1008): remove the item up front; for
a WaylandWritePipe, write the payload (when nonempty) and re-insert the item
only when the hang-up flag is 0; any other item kind stays removed and gives
InvalidCrossDomainItemType. -/
def CrossDomainContext.write (ctx : CrossDomainContext) (cmd_write : CrossDomainReadWrite)
    (opaque_data : List Nat) : Except RutabagaError Unit × CrossDomainContext :=
  match mapLookup ctx.item_state.table cmd_write.identifier with
  | none => (Except.error RutabagaError.InvalidCrossDomainItemId, ctx)
  | some item =>
    let items1 := { ctx.item_state with table := mapRemove ctx.item_state.table cmd_write.identifier }
    match item with
    | CrossDomainItem.WaylandWritePipe pipe =>
      let writes1 :=
        if cmd_write.opaque_data_size ≠ 0 then ctx.pipe_writes ++ [(pipe, opaque_data)]
        else ctx.pipe_writes
      if cmd_write.hang_up = 0 then
        let table2 := mapInsert items1.table cmd_write.identifier
          (CrossDomainItem.WaylandWritePipe pipe)
        let items2 := { items1 with table := table2 }
        (Except.ok (), { ctx with item_state := items2, pipe_writes := writes1 })
      else
        (Except.ok (), { ctx with item_state := items1, pipe_writes := writes1 })
    | _ =>
      (Except.error RutabagaError.InvalidCrossDomainItemType, { ctx with item_state := items1 })

/-- `CrossDomainContext::futex_signal` (mod.rs:913): wake the word's waiters
with bitset `!1`; the wake itself leaves the modelled state unchanged. -/
def CrossDomainContext.futex_signal (ctx : CrossDomainContext)
    (cmd_futex_signal : CrossDomainFutexSignal) :
    Except RutabagaError Unit × CrossDomainContext :=
  match mapLookup ctx.futexes cmd_futex_signal.id with
  | some _ => (Except.ok (), ctx)
  | none => (Except.error RutabagaError.InvalidCrossDomainItemId, ctx)

/-- `CrossDomainContext::futex_destroy` (mod.rs:925) at context level. -/
def CrossDomainContext.futex_destroy (ctx : CrossDomainContext)
    (cmd_futex_destroy : CrossDomainFutexDestroy) :
    Except RutabagaError Unit × CrossDomainContext :=
  let r := futex_destroy_locked ctx.futexes cmd_futex_destroy.id
  (r.fst, { ctx with futexes := r.snd })

/-- `CrossDomainContext::futex_new` (mod.rs:935): resolve `(fs_id, handle)`
through the virtiofs table, refuse an id already in use, map the word, queue
AddFutex for the worker, spawn the watcher and insert the entry. -/
def CrossDomainContext.futex_new (ctx : CrossDomainContext)
    (cmd_futex_new : CrossDomainFutexNew) :
    Except RutabagaError Unit × CrossDomainContext :=
  match ctx.virtiofs_table with
  | none => (Except.error RutabagaError.InvalidCrossDomainItemId, ctx)
  | some virtiofs =>
    if mapContains ctx.futexes cmd_futex_new.id then
      (Except.error RutabagaError.AlreadyInUse, ctx)
    else
      match mapLookup virtiofs (cmd_futex_new.fs_id, cmd_futex_new.handle) with
      | none => (Except.error RutabagaError.InvalidCrossDomainItemId, ctx)
      | some fw =>
        match ctx.state with
        | none => (Except.error RutabagaError.InvalidCrossDomainState, ctx)
        | some st =>
          let st1 := { st with jobs := st.jobs ++ [CrossDomainJob.AddFutex cmd_futex_new.id 0] }
          let ftx := freshFutex fw.snd fw.fst 0
          (Except.ok (),
            { ctx with
                state := some st1
                futexes := mapInsert ctx.futexes cmd_futex_new.id ftx })

/-! ## Resources and blob creation -/

/-- `ResourceCreateBlob` fields used by the cross-domain code.  `blob_id` is
a u64 in the source and is truncated with `as u32` where it is used as an
item id. -/
structure ResourceCreateBlob where
  blob_mem : Nat
  blob_flags : Nat
  blob_id : Nat
  size : Nat
  deriving Repr, DecidableEq

/-- `Resource3DInfo`. -/
structure Resource3DInfo where
  width : Nat
  height : Nat
  drm_fourcc : Nat
  strides : List Nat
  offsets : List Nat
  modifier : Nat
  deriving Repr, DecidableEq

/-- `RutabagaResource` fields the cross-domain code sets. -/
structure RutabagaResource where
  resource_id : Nat
  handle : Option RutabagaHandle
  blob : Bool
  blob_mem : Nat
  blob_flags : Nat
  map_info : Option Nat
  info_2d : Option Unit
  info_3d : Option Resource3DInfo
  vulkan_info : Option VulkanInfo
  backing_iovecs : Option (List (List Nat))
  component_mask : Nat
  size : Nat
  mapping : Option Unit
  deriving Repr, DecidableEq

/-- `CrossDomainContext::context_create_blob` (mod.rs:1074): look the item up
by the truncated `blob_id`.  An ImageRequirements item must match the
requested size exactly (else "blob size mismatch") and stays in the table;
its resource carries full 3D info and `map_info | RW`.  Any other item is
removed: a Blob becomes a resource whose map access is derived from the
handle kind (SHM → READ, DMABUF → RW, unknown → READ); pipe items give
InvalidCrossDomainItemType. -/
def CrossDomainContext.context_create_blob (ctx : CrossDomainContext) (resource_id : Nat)
    (resource_create_blob : ResourceCreateBlob) (handle_opt : Option RutabagaHandle) :
    Except RutabagaError RutabagaResource × CrossDomainContext :=
  let item_id := resource_create_blob.blob_id % U32_MOD
  match mapLookup ctx.item_state.table item_id with
  | none => (Except.error RutabagaError.InvalidCrossDomainItemId, ctx)
  | some (CrossDomainItem.ImageRequirements reqs) =>
    if reqs.size ≠ resource_create_blob.size then
      (Except.error (RutabagaError.WithContext ("blob size mismatch")), ctx)
    else
      let hndE : Except RutabagaError RutabagaHandle :=
        match handle_opt with
        | some handle => Except.ok handle
        | none =>
          match ctx.gralloc.allocFn reqs with
          | Except.ok mh => Except.ok (RutabagaHandle.MesaHandle mh)
          | Except.error e => Except.error e
      match hndE with
      | Except.error e => (Except.error e, ctx)
      | Except.ok hnd =>
        let info_3d : Resource3DInfo :=
          { width := reqs.info.width
            height := reqs.info.height
            drm_fourcc := reqs.info.drm_format
            strides := reqs.strides
            offsets := reqs.offsets
            modifier := reqs.modifier }
        (Except.ok
          { resource_id := resource_id
            handle := some hnd
            blob := true
            blob_mem := resource_create_blob.blob_mem
            blob_flags := resource_create_blob.blob_flags
            map_info := some (Nat.lor reqs.map_info RUTABAGA_MAP_ACCESS_RW)
            info_2d := none
            info_3d := some info_3d
            vulkan_info := reqs.vulkan_info
            backing_iovecs := none
            component_mask := 2 ^ RutabagaComponentType_CrossDomain
            size := resource_create_blob.size
            mapping := none }, ctx)
  | some item =>
    let items1 := { ctx.item_state with table := mapRemove ctx.item_state.table item_id }
    let ctx1 := { ctx with item_state := items1 }
    match item with
    | CrossDomainItem.Blob hnd =>
      let map_access :=
        if hnd.handle_type = MESA_HANDLE_TYPE_MEM_SHM then RUTABAGA_MAP_ACCESS_READ
        else if hnd.handle_type = MESA_HANDLE_TYPE_MEM_DMABUF then RUTABAGA_MAP_ACCESS_RW
        else RUTABAGA_MAP_ACCESS_READ
      (Except.ok
        { resource_id := resource_id
          handle := some (RutabagaHandle.MesaHandle hnd)
          blob := true
          blob_mem := resource_create_blob.blob_mem
          blob_flags := resource_create_blob.blob_flags
          map_info := some (Nat.lor RUTABAGA_MAP_CACHE_CACHED map_access)
          info_2d := none
          info_3d := none
          vulkan_info := none
          backing_iovecs := none
          component_mask := 2 ^ RutabagaComponentType_CrossDomain
          size := resource_create_blob.size
          mapping := none }, ctx1)
    | _ => (Except.error RutabagaError.InvalidCrossDomainItemType, ctx1)

/-- `CrossDomainContext::context_create_fence` (mod.rs:1299): a query-ring
fence is signaled immediately; a channel-ring fence becomes a HandleFence job
when the context state exists — and is silently dropped when it does not;
other ring indices are an error.  Returns Ok(None) otherwise. -/
def CrossDomainContext.context_create_fence (ctx : CrossDomainContext) (fence : RutabagaFence) :
    Except RutabagaError (Option MesaHandle) × CrossDomainContext :=
  if fence.ring_idx = CROSS_DOMAIN_QUERY_RING then
    (Except.ok none, { ctx with fences_signaled := ctx.fences_signaled ++ [fence] })
  else if fence.ring_idx = CROSS_DOMAIN_CHANNEL_RING then
    match ctx.state with
    | some st =>
      let st1 := { st with jobs := st.jobs ++ [CrossDomainJob.HandleFence fence] }
      (Except.ok none, { ctx with state := some st1 })
    | none => (Except.ok none, ctx)
  else
    (Except.error (RutabagaError.WithContext ("unexpected ring type")), ctx)

/-- `CrossDomain::create_blob` (mod.rs:1344), the component-level factory:
rejects a request only when the memory kind is not guest AND the flags are
not USE_MAPPABLE; otherwise wraps the caller-supplied iovec list in a
resource with no handle, no map info and no copying. -/
def CrossDomain.create_blob (_ctx_id : Nat) (resource_id : Nat)
    (resource_create_blob : ResourceCreateBlob) (iovec_opt : Option (List (List Nat)))
    (_handle_opt : Option RutabagaHandle) : Except RutabagaError RutabagaResource :=
  if resource_create_blob.blob_mem ≠ RUTABAGA_BLOB_MEM_GUEST ∧
      resource_create_blob.blob_flags ≠ RUTABAGA_BLOB_FLAG_USE_MAPPABLE then
    Except.error (RutabagaError.WithContext ("expected only guest memory blobs"))
  else
    Except.ok
      { resource_id := resource_id
        handle := none
        blob := true
        blob_mem := resource_create_blob.blob_mem
        blob_flags := resource_create_blob.blob_flags
        map_info := none
        info_2d := none
        info_3d := none
        vulkan_info := none
        backing_iovecs := iovec_opt
        component_mask := 2 ^ RutabagaComponentType_CrossDomain
        size := resource_create_blob.size
        mapping := none }

/-! ## Command-buffer parsing and the dispatcher

`zerocopy`'s `read_from_prefix` succeeds iff the buffer holds at least the
struct's size; fields are read little-endian from their offsets. -/

/-- Read a u32 from the first four bytes, if present. -/
def readU32 : List Nat → Option Nat
  | b0 :: b1 :: b2 :: b3 :: _ => some (b0 + 256 * b1 + 65536 * b2 + 16777216 * b3)
  | _ => none

/-- Read a u32 at a byte offset. -/
def readU32At (b : List Nat) (off : Nat) : Option Nat :=
  readU32 (b.drop off)

/-- Read a u64 at a byte offset. -/
def readU64At (b : List Nat) (off : Nat) : Option Nat :=
  match readU32At b off, readU32At b (off + 4) with
  | some lo, some hi => some (lo + U32_MOD * hi)
  | _, _ => none

/-- Read `count` consecutive u32s starting at a byte offset. -/
def readU32Array (b : List Nat) (off : Nat) : Nat → Option (List Nat)
  | 0 => some []
  | count + 1 =>
    match readU32At b off, readU32Array b (off + 4) count with
    | some x, some xs => some (x :: xs)
    | _, _ => none

/-- `CrossDomainHeader::read_from_prefix` (8 bytes). -/
def readHeader (b : List Nat) : Option CrossDomainHeader :=
  match readU32At b 0, readU32At b 4 with
  | some c, some s => some { cmd := c, cmd_size := s }
  | _, _ => none

/-- `CrossDomainInit::read_from_prefix` (20 bytes). -/
def readInit (b : List Nat) : Option CrossDomainInit :=
  match readHeader b, readU32At b 8, readU32At b 12, readU32At b 16 with
  | some hdr, some q, some c, some t =>
    some { hdr := hdr, query_ring_id := q, channel_ring_id := c, channel_type := t }
  | _, _, _, _ => none

/-- `CrossDomainInitLegacy::read_from_prefix` (16 bytes). -/
def readInitLegacy (b : List Nat) : Option CrossDomainInitLegacy :=
  match readHeader b, readU32At b 8, readU32At b 12 with
  | some hdr, some q, some t =>
    some { hdr := hdr, query_ring_id := q, channel_type := t }
  | _, _, _ => none

/-- `CrossDomainGetImageRequirements::read_from_prefix` (24 bytes). -/
def readGetImageRequirements (b : List Nat) : Option CrossDomainGetImageRequirements :=
  match readHeader b, readU32At b 8, readU32At b 12, readU32At b 16, readU32At b 20 with
  | some hdr, some w, some h, some fmt, some fl =>
    some { hdr := hdr, width := w, height := h, drm_format := fmt, flags := fl }
  | _, _, _, _, _ => none

/-- Byte size of `CrossDomainSendReceive`: header, two u32 counts, three
`[u32; MAX_IDENTIFIERS]` arrays. -/
def sizeOfSendReceive : Nat := 16 + 3 * (4 * CROSS_DOMAIN_MAX_IDENTIFIERS)

/-- `CrossDomainSendReceive::read_from_prefix`. -/
def readSendReceive (b : List Nat) : Option CrossDomainSendReceive :=
  match readHeader b, readU32At b 8, readU32At b 12,
      readU32Array b 16 CROSS_DOMAIN_MAX_IDENTIFIERS,
      readU32Array b (16 + 4 * CROSS_DOMAIN_MAX_IDENTIFIERS) CROSS_DOMAIN_MAX_IDENTIFIERS,
      readU32Array b (16 + 8 * CROSS_DOMAIN_MAX_IDENTIFIERS) CROSS_DOMAIN_MAX_IDENTIFIERS with
  | some hdr, some n, some osz, some ids, some tys, some szs =>
    some { hdr := hdr, num_identifiers := n, opaque_data_size := osz,
           identifiers := ids, identifier_types := tys, identifier_sizes := szs }
  | _, _, _, _, _, _ => none

/-- Byte size of `CrossDomainReadWrite`. -/
def sizeOfReadWrite : Nat := 24

/-- `CrossDomainReadWrite::read_from_prefix` (24 bytes). -/
def readReadWrite (b : List Nat) : Option CrossDomainReadWrite :=
  match readHeader b, readU32At b 8, readU32At b 12, readU32At b 16, readU32At b 20 with
  | some hdr, some ident, some hu, some osz, some pad =>
    some { hdr := hdr, identifier := ident, hang_up := hu, opaque_data_size := osz, pad := pad }
  | _, _, _, _, _ => none

/-- `CrossDomainFutexNew::read_from_prefix` (32 bytes: id, padding, two
u64s). -/
def readFutexNew (b : List Nat) : Option CrossDomainFutexNew :=
  match readHeader b, readU32At b 8, readU32At b 12, readU64At b 16, readU64At b 24 with
  | some hdr, some i, some _, some fs, some hd =>
    some { hdr := hdr, id := i, fs_id := fs, handle := hd }
  | _, _, _, _, _ => none

/-- `CrossDomainFutexSignal::read_from_prefix` (16 bytes). -/
def readFutexSignal (b : List Nat) : Option CrossDomainFutexSignal :=
  match readHeader b, readU32At b 8, readU32At b 12 with
  | some hdr, some i, some _ => some { hdr := hdr, id := i }
  | _, _, _ => none

/-- `CrossDomainFutexDestroy::read_from_prefix` (16 bytes). -/
def readFutexDestroy (b : List Nat) : Option CrossDomainFutexDestroy :=
  match readHeader b, readU32At b 8, readU32At b 12 with
  | some hdr, some i, some _ => some { hdr := hdr, id := i }
  | _, _, _ => none

/-- `commands.get_mut(a..b)`: `Some` iff `a ≤ b ≤ len`. -/
def sliceRange (b : List Nat) (lo hi : Nat) : Option (List Nat) :=
  if lo ≤ hi ∧ hi ≤ b.length then some ((b.drop lo).take (hi - lo)) else none

/-- One dispatch step of `submit_cmd` (mod.rs:1178-1262): given the parsed
header and the remaining buffer, run the tagged command's handler. -/
def CrossDomainContext.dispatchCmd (ctx : CrossDomainContext) (hdr : CrossDomainHeader)
    (commands : List Nat) : Except RutabagaError Unit × CrossDomainContext :=
  if hdr.cmd = CROSS_DOMAIN_CMD_INIT then
    match readInit commands with
    | some cmd_init => CrossDomainContext.initCtx ctx cmd_init
    | none =>
      match readInitLegacy commands with
      | some leg =>
        CrossDomainContext.initCtx ctx
          { hdr := leg.hdr
            query_ring_id := leg.query_ring_id
            channel_ring_id := leg.query_ring_id
            channel_type := leg.channel_type }
      | none => (Except.error RutabagaError.InvalidCommandBuffer, ctx)
  else if hdr.cmd = CROSS_DOMAIN_CMD_GET_IMAGE_REQUIREMENTS then
    match readGetImageRequirements commands with
    | some cmd_get_reqs => CrossDomainContext.get_image_requirements ctx cmd_get_reqs
    | none => (Except.error RutabagaError.InvalidCommandBuffer, ctx)
  else if hdr.cmd = CROSS_DOMAIN_CMD_SEND then
    match readSendReceive commands with
    | some cmd_send =>
      match sliceRange commands sizeOfSendReceive
          (sizeOfSendReceive + cmd_send.opaque_data_size) with
      | some od => CrossDomainContext.send ctx cmd_send od
      | none => (Except.error (RutabagaError.InvalidCommandSize cmd_send.opaque_data_size), ctx)
    | none => (Except.error RutabagaError.InvalidCommandBuffer, ctx)
  else if hdr.cmd = CROSS_DOMAIN_CMD_POLL then
    (Except.ok (), ctx)
  else if hdr.cmd = CROSS_DOMAIN_CMD_WRITE then
    match readReadWrite commands with
    | some cmd_write =>
      match sliceRange commands sizeOfReadWrite
          (sizeOfReadWrite + cmd_write.opaque_data_size) with
      | some od => CrossDomainContext.write ctx cmd_write od
      | none => (Except.error (RutabagaError.InvalidCommandSize cmd_write.opaque_data_size), ctx)
    | none => (Except.error RutabagaError.InvalidCommandBuffer, ctx)
  else if hdr.cmd = CROSS_DOMAIN_CMD_FUTEX_NEW then
    match readFutexNew commands with
    | some cmd_new_futex => CrossDomainContext.futex_new ctx cmd_new_futex
    | none => (Except.error RutabagaError.InvalidCommandBuffer, ctx)
  else if hdr.cmd = CROSS_DOMAIN_CMD_FUTEX_SIGNAL then
    match readFutexSignal commands with
    | some cmd_futex_signal => CrossDomainContext.futex_signal ctx cmd_futex_signal
    | none => (Except.error RutabagaError.InvalidCommandBuffer, ctx)
  else if hdr.cmd = CROSS_DOMAIN_CMD_FUTEX_DESTROY then
    match readFutexDestroy commands with
    | some cmd_futex_destroy => CrossDomainContext.futex_destroy ctx cmd_futex_destroy
    | none => (Except.error RutabagaError.InvalidCommandBuffer, ctx)
  else
    (Except.error (RutabagaError.WithContext ("invalid cross domain command")), ctx)

/-- The `submit_cmd` loop (mod.rs:1174-1267), indexed by fuel: parse the
header, dispatch, then advance by `hdr.cmd_size` bytes; `none` means the fuel
ran out before the loop finished.  The source loop has no fuel — the fuel
only lets the model express whether the loop terminates. -/
def submitCmdGo : Nat → CrossDomainContext → List Nat →
    Option (Except RutabagaError Unit × CrossDomainContext)
  | 0, _, _ => none
  | fuel + 1, ctx, commands =>
    if commands.isEmpty then some (Except.ok (), ctx)
    else
      match readHeader commands with
      | none => some (Except.error RutabagaError.InvalidCommandBuffer, ctx)
      | some hdr =>
        match CrossDomainContext.dispatchCmd ctx hdr commands with
        | (Except.error e, ctx1) => some (Except.error e, ctx1)
        | (Except.ok _, ctx1) =>
          if hdr.cmd_size ≤ commands.length then
            submitCmdGo fuel ctx1 (commands.drop hdr.cmd_size)
          else
            some (Except.error (RutabagaError.InvalidCommandSize hdr.cmd_size), ctx1)

/-- `CrossDomainContext::submit_cmd` with fuel `length + 1` — enough for any
run that consumes at least one byte per iteration. -/
def CrossDomainContext.submit_cmd (ctx : CrossDomainContext) (commands : List Nat) :
    Option (Except RutabagaError Unit × CrossDomainContext) :=
  submitCmdGo (commands.length + 1) ctx commands

/-! ## Contexts and buffers for concrete runs -/

/-- A gralloc whose calls fail; no claim below exercises allocation through
the dispatcher. -/
def grallocFail : RutabagaGralloc :=
  { reqsFn := fun _ => Except.error RutabagaError.Unsupported
    allocFn := fun _ => Except.error RutabagaError.Unsupported }

/-- `CrossDomain::create_context` (mod.rs:1375): a fresh context with empty
tables and no state, holding the component's paths, gralloc and virtiofs
table. -/
def CrossDomain.create_context (paths : Option (List RutabagaPath))
    (gralloc : RutabagaGralloc) (virtiofs_table : Option VirtioFsTable) : CrossDomainContext :=
  { paths := paths
    gralloc := gralloc
    state := none
    context_resources := []
    item_state := crossDomainItemsDefault
    futexes := []
    worker_spawned := false
    resample_evt := none
    kill_evt := none
    virtiofs_table := virtiofs_table
    next_pipe := 0
    fences_signaled := []
    pipe_writes := [] }

/-- A fresh zero-channel context with one context resource, id 7. -/
def C4_ctx : CrossDomainContext :=
  { CrossDomain.create_context none grallocFail none with
      context_resources := [(7, ⟨none, some [[0, 0, 0, 0]]⟩)] }

/-- A 16-byte legacy INIT (query ring 7, channel type 0) followed by an
8-byte POLL. -/
def legacyThenPoll : List Nat :=
  u32ToBytes 1 ++ u32ToBytes 16 ++ u32ToBytes 7 ++ u32ToBytes 0 ++ u32ToBytes 3 ++ u32ToBytes 8

/-- The full-form counterpart: INIT (query 7, channel ring 7, type 0), then
the same POLL. -/
def fullThenPoll : List Nat :=
  u32ToBytes 1 ++ u32ToBytes 20 ++ u32ToBytes 7 ++ u32ToBytes 7 ++ u32ToBytes 0 ++
    u32ToBytes 3 ++ u32ToBytes 8

/-- Claim C4, counterexample: when another command follows the 16-byte legacy
INIT in the same buffer, at least 20 bytes remain at the INIT, so the
full-form parse *succeeds* on the legacy encoding — reading the legacy
`channel_type` slot as `channel_ring_id` and the next command's tag as
`channel_type`.  Submitting legacy INIT{query=7, type=0} + POLL fails with
InvalidResourceId, while the claimed equivalent full INIT{7, 7, 0} + POLL
succeeds. -/
theorem C4_claim_false :
    (CrossDomainContext.submit_cmd C4_ctx legacyThenPoll).map Prod.fst =
      some (Except.error RutabagaError.InvalidResourceId) ∧
    (CrossDomainContext.submit_cmd C4_ctx fullThenPoll).map Prod.fst =
      some (Except.ok ()) := by
  exact ⟨rfl, rfl⟩

/-- Claim C4 (amended): when the legacy INIT is the whole remaining buffer —
fewer than 20 bytes remain, so the full-form parse fails and the legacy
fallback runs — submitting it is observationally equivalent (same result,
same context afterwards) to submitting the full-form INIT whose
`channel_ring_id` bytes duplicate the `query_ring_id` bytes.  The byte
quadruples are arbitrary. -/
theorem C4_legacy_init_equiv (q0 q1 q2 q3 t0 t1 t2 t3 : Nat) (ctx : CrossDomainContext) :
    CrossDomainContext.submit_cmd ctx
      (u32ToBytes CROSS_DOMAIN_CMD_INIT ++ u32ToBytes 16 ++
        [q0, q1, q2, q3] ++ [t0, t1, t2, t3]) =
    CrossDomainContext.submit_cmd ctx
      (u32ToBytes CROSS_DOMAIN_CMD_INIT ++ u32ToBytes 20 ++
        [q0, q1, q2, q3] ++ [q0, q1, q2, q3] ++ [t0, t1, t2, t3]) := rfl

theorem C4_legacy_init_equiv_witness :
    CrossDomainContext.submit_cmd C4_ctx
      (u32ToBytes CROSS_DOMAIN_CMD_INIT ++ u32ToBytes 16 ++
        [7, 0, 0, 0] ++ [0, 0, 0, 0]) =
    CrossDomainContext.submit_cmd C4_ctx
      (u32ToBytes CROSS_DOMAIN_CMD_INIT ++ u32ToBytes 20 ++
        [7, 0, 0, 0] ++ [7, 0, 0, 0] ++ [0, 0, 0, 0]) :=
  C4_legacy_init_equiv 7 0 0 0 0 0 0 0 C4_ctx

/-- An 8-byte POLL command whose declared `cmd_size` is 0. -/
def pollZeroBuf : List Nat := u32ToBytes CROSS_DOMAIN_CMD_POLL ++ u32ToBytes 0

/-- The dispatcher loop never finishes on this buffer, whatever the fuel. -/
def submitRunsForever (ctx : CrossDomainContext) (commands : List Nat) : Prop :=
  ∀ fuel, submitCmdGo fuel ctx commands = none

/-- Claim C5, failing input: a POLL whose header declares `cmd_size = 0`.
`commands.get_mut(0..)` returns the whole (non-empty) buffer again, so the
loop re-parses the same POLL forever: `submit_cmd` exhausts any fuel.  The
claim's "strictly advances" fails — an iteration can leave the buffer
unchanged. -/
theorem C5_poll_zero_size_loops :
    submitRunsForever (CrossDomain.create_context none grallocFail none) pollZeroBuf := by
  intro fuel
  induction fuel with
  | zero => rfl
  | succ n ih => exact ih

/-- One iteration of the loop on the failing input dispatches the POLL
successfully and hands the *same* buffer and context to the next iteration. -/
theorem C5_poll_zero_size_step (n : Nat) (ctx : CrossDomainContext) :
    submitCmdGo (n + 1) ctx pollZeroBuf = submitCmdGo n ctx pollZeroBuf := rfl

/-- Claim C6, code-bug evaluation: `CrossDomain::create_blob` rejects a
request only when `blob_mem ≠ GUEST` *and* `blob_flags ≠ USE_MAPPABLE`, so a
non-guest blob (`blob_mem = 2`) slips through whenever the mappable flag is
set — returning Ok against the handler's own "expected only guest memory
blobs" error text — while guest-memory requests wrap the caller's iovecs
uncopied with no handle. -/
theorem C6_create_blob_eval :
    (CrossDomain.create_blob 0 8 ⟨2, RUTABAGA_BLOB_FLAG_USE_MAPPABLE, 0, 100⟩
        (some [[3]]) none).isOk = true ∧
    CrossDomain.create_blob 0 8 ⟨2, 0, 0, 100⟩ (some [[3]]) none =
      Except.error (RutabagaError.WithContext ("expected only guest memory blobs")) ∧
    CrossDomain.create_blob 0 7 ⟨RUTABAGA_BLOB_MEM_GUEST, 0, 0, 100⟩ (some [[1, 2]]) none =
      Except.ok
        { resource_id := 7
          handle := none
          blob := true
          blob_mem := RUTABAGA_BLOB_MEM_GUEST
          blob_flags := 0
          map_info := none
          info_2d := none
          info_3d := none
          vulkan_info := none
          backing_iovecs := some [[1, 2]]
          component_mask := 2 ^ RutabagaComponentType_CrossDomain
          size := 100
          mapping := none } := by
  exact ⟨rfl, rfl, rfl⟩

/-- Claim C8: a SEND whose `num_identifiers` exceeds MAX_IDENTIFIERS fails
up front and the context is returned untouched — nothing was transmitted on
the stream socket (`sent_msgs` unchanged), no item installed, no descriptor
duplicated, no job queued. -/
theorem C8_send_max_identifiers (ctx : CrossDomainContext)
    (cmd_send : CrossDomainSendReceive) (opaque_data : List Nat)
    (h : cmd_send.num_identifiers > CROSS_DOMAIN_MAX_IDENTIFIERS) :
    CrossDomainContext.send ctx cmd_send opaque_data =
      (Except.error (RutabagaError.WithContext ("max cross domain identifiers exceeded")),
        ctx) := by
  unfold CrossDomainContext.send
  rw [if_pos h]

/-- A SEND header carrying 29 identifiers. -/
def C8_cmd : CrossDomainSendReceive :=
  { hdr := ⟨CROSS_DOMAIN_CMD_SEND, sizeOfSendReceive⟩
    num_identifiers := 29
    opaque_data_size := 0
    identifiers := []
    identifier_types := []
    identifier_sizes := [] }
theorem C8_send_max_identifiers_witness :
    C8_cmd.num_identifiers > CROSS_DOMAIN_MAX_IDENTIFIERS ∧
    CrossDomainContext.send (CrossDomain.create_context none grallocFail none) C8_cmd [] =
      (Except.error (RutabagaError.WithContext ("max cross domain identifiers exceeded")),
        CrossDomain.create_context none grallocFail none) :=
  ⟨by decide, C8_send_max_identifiers (CrossDomain.create_context none grallocFail none)
    C8_cmd [] (by decide)⟩

/-- Claim C9: when `blob_id` (truncated to u32) names an ImageRequirements
item, `context_create_blob` leaves the context — in particular the item
table — unchanged in every outcome; a size mismatch fails with the
"blob size mismatch" error, and the ImageRequirements item is still present
afterwards. -/
theorem C9_image_requirements_size_check (ctx : CrossDomainContext) (resource_id : Nat)
    (resource_create_blob : ResourceCreateBlob) (handle_opt : Option RutabagaHandle)
    (reqs : ImageMemoryRequirements)
    (hitem : mapLookup ctx.item_state.table (resource_create_blob.blob_id % U32_MOD) =
      some (CrossDomainItem.ImageRequirements reqs)) :
    (CrossDomainContext.context_create_blob ctx resource_id resource_create_blob
        handle_opt).snd = ctx ∧
    (reqs.size ≠ resource_create_blob.size →
      (CrossDomainContext.context_create_blob ctx resource_id resource_create_blob
          handle_opt).fst =
        Except.error (RutabagaError.WithContext ("blob size mismatch"))) ∧
    mapLookup (CrossDomainContext.context_create_blob ctx resource_id resource_create_blob
        handle_opt).snd.item_state.table (resource_create_blob.blob_id % U32_MOD) =
      some (CrossDomainItem.ImageRequirements reqs) := by
  have hsnd : (CrossDomainContext.context_create_blob ctx resource_id resource_create_blob
      handle_opt).snd = ctx := by
    unfold CrossDomainContext.context_create_blob
    simp only [hitem]
    split
    · rfl
    · split <;> rfl
  refine ⟨hsnd, ?_, ?_⟩
  · intro hne
    unfold CrossDomainContext.context_create_blob
    simp only [hitem]
    rw [if_pos hne]
  · rw [hsnd]
    exact hitem

/-- An item table holding ImageRequirements of size 4096 under id 5. -/
def C9_reqs : ImageMemoryRequirements :=
  { info := ⟨64, 64, 875713089, 0⟩
    strides := [256, 0, 0, 0]
    offsets := [0, 0, 0, 0]
    modifier := 0
    size := 4096
    map_info := 1
    vulkan_info := none }
def C9_ctx : CrossDomainContext :=
  { CrossDomain.create_context none grallocFail none with
      item_state :=
        { descriptor_id := 2
          read_pipe_id := CROSS_DOMAIN_PIPE_READ_START
          table := [(2, CrossDomainItem.ImageRequirements C9_reqs)] } }
theorem C9_image_requirements_size_check_witness :
    mapLookup C9_ctx.item_state.table ((2 : Nat) % U32_MOD) =
      some (CrossDomainItem.ImageRequirements C9_reqs) ∧
    ((CrossDomainContext.context_create_blob C9_ctx 11 ⟨1, 0, 2, 4095⟩ none).snd = C9_ctx ∧
     (C9_reqs.size ≠ (4095 : Nat) →
       (CrossDomainContext.context_create_blob C9_ctx 11 ⟨1, 0, 2, 4095⟩ none).fst =
         Except.error (RutabagaError.WithContext ("blob size mismatch"))) ∧
     mapLookup (CrossDomainContext.context_create_blob C9_ctx 11
         ⟨1, 0, 2, 4095⟩ none).snd.item_state.table ((2 : Nat) % U32_MOD) =
       some (CrossDomainItem.ImageRequirements C9_reqs)) :=
  ⟨by decide, C9_image_requirements_size_check C9_ctx 11 ⟨1, 0, 2, 4095⟩ none C9_reqs (by decide)⟩

/-- Claim C10: a channel-ring fence created before a successful INIT (context
state unset) returns Ok(None) with the context untouched — the fence is
neither signaled (`fences_signaled` unchanged) nor enqueued as a HandleFence
job; it is silently dropped. -/
theorem C10_channel_fence_before_init (ctx : CrossDomainContext) (fence : RutabagaFence)
    (hring : fence.ring_idx = CROSS_DOMAIN_CHANNEL_RING) (hstate : ctx.state = none) :
    CrossDomainContext.context_create_fence ctx fence = (Except.ok none, ctx) := by
  unfold CrossDomainContext.context_create_fence
  rw [hring]
  rw [if_neg (by decide)]
  rw [if_pos rfl]
  rw [hstate]

theorem C10_channel_fence_before_init_witness :
    (⟨0, 1, 0, CROSS_DOMAIN_CHANNEL_RING⟩ : RutabagaFence).ring_idx =
      CROSS_DOMAIN_CHANNEL_RING ∧
    (CrossDomain.create_context none grallocFail none).state = none ∧
    CrossDomainContext.context_create_fence (CrossDomain.create_context none grallocFail none)
        ⟨0, 1, 0, CROSS_DOMAIN_CHANNEL_RING⟩ =
      (Except.ok none, CrossDomain.create_context none grallocFail none) :=
  ⟨by decide, rfl,
    C10_channel_fence_before_init (CrossDomain.create_context none grallocFail none)
      ⟨0, 1, 0, CROSS_DOMAIN_CHANNEL_RING⟩ (by decide) rfl⟩

/-! ## C7: a removed write-pipe id stays dead -/

/-- Every operation through which the context's item table changes:
`add_item` (GET_IMAGE_REQUIREMENTS stores requirements, the worker installs
received blobs and write pipes, SEND installs read pipes), the WRITE
command, `context_create_blob`, and the worker's removal of a read pipe at
EOF. -/
inductive ItemOp where
  | add (item : CrossDomainItem)
  | writeCmd (cmd : CrossDomainReadWrite) (data : List Nat)
  | createBlob (resource_id : Nat) (rcb : ResourceCreateBlob)
      (handle_opt : Option RutabagaHandle)
  | pipeRemove (id : Nat)

/-- Apply one item-table operation to the context, keeping only the state. -/
def applyItemOp (ctx : CrossDomainContext) : ItemOp → CrossDomainContext
  | ItemOp.add item => { ctx with item_state := (add_item ctx.item_state item).snd }
  | ItemOp.writeCmd cmd data => (CrossDomainContext.write ctx cmd data).snd
  | ItemOp.createBlob rid rcb h => (CrossDomainContext.context_create_blob ctx rid rcb h).snd
  | ItemOp.pipeRemove id =>
    { ctx with item_state :=
        { ctx.item_state with table := mapRemove ctx.item_state.table id } }

/-- A WRITE naming an absent item id fails with InvalidCrossDomainItemId and
changes nothing. -/
theorem write_absent (ctx : CrossDomainContext) (cmd : CrossDomainReadWrite) (data : List Nat)
    (hfree : mapLookup ctx.item_state.table cmd.identifier = none) :
    CrossDomainContext.write ctx cmd data =
      (Except.error RutabagaError.InvalidCrossDomainItemId, ctx) := by
  unfold CrossDomainContext.write
  simp only [hfree]

/-- A `context_create_blob` naming an absent item id fails with
InvalidCrossDomainItemId and changes nothing. -/
theorem context_create_blob_absent (ctx : CrossDomainContext) (rid : Nat)
    (rcb : ResourceCreateBlob) (handle_opt : Option RutabagaHandle)
    (hfree : mapLookup ctx.item_state.table (rcb.blob_id % U32_MOD) = none) :
    CrossDomainContext.context_create_blob ctx rid rcb handle_opt =
      (Except.error RutabagaError.InvalidCrossDomainItemId, ctx) := by
  unfold CrossDomainContext.context_create_blob
  simp only [hfree]

/-- `CrossDomainContext.write` either leaves the context alone, or removes
the named key and possibly re-inserts it; it never touches other keys or the
id counters. -/
theorem write_preserves_free (ctx : CrossDomainContext) (cmd : CrossDomainReadWrite)
    (data : List Nat) (id : Nat) (hfree : mapLookup ctx.item_state.table id = none) :
    mapLookup (CrossDomainContext.write ctx cmd data).snd.item_state.table id = none ∧
    (CrossDomainContext.write ctx cmd data).snd.item_state.descriptor_id =
      ctx.item_state.descriptor_id := by
  cases hI : mapLookup ctx.item_state.table cmd.identifier with
  | none =>
    simp only [CrossDomainContext.write, hI]
    exact ⟨hfree, True.intro⟩
  | some item =>
    have hne : cmd.identifier ≠ id := by
      intro hc
      rw [hc, hfree] at hI
      cases hI
    cases item with
    | WaylandWritePipe pipe =>
      by_cases hh : cmd.hang_up = 0
      · simp only [CrossDomainContext.write, hI, if_pos hh]
        exact ⟨mapLookup_insert_none _ _ _ _ (mapLookup_remove_none _ _ _ hfree) hne, True.intro⟩
      · simp only [CrossDomainContext.write, hI, if_neg hh]
        exact ⟨mapLookup_remove_none _ _ _ hfree, True.intro⟩
    | ImageRequirements reqs =>
      simp only [CrossDomainContext.write, hI]
      exact ⟨mapLookup_remove_none _ _ _ hfree, True.intro⟩
    | Blob hnd =>
      simp only [CrossDomainContext.write, hI]
      exact ⟨mapLookup_remove_none _ _ _ hfree, True.intro⟩
    | WaylandReadPipe pipe =>
      simp only [CrossDomainContext.write, hI]
      exact ⟨mapLookup_remove_none _ _ _ hfree, True.intro⟩

/-- `context_create_blob` leaves the context unchanged or removes exactly the
looked-up key; counters never move. -/
theorem context_create_blob_preserves_free (ctx : CrossDomainContext) (rid : Nat)
    (rcb : ResourceCreateBlob) (handle_opt : Option RutabagaHandle) (id : Nat)
    (hfree : mapLookup ctx.item_state.table id = none) :
    mapLookup (CrossDomainContext.context_create_blob ctx rid rcb
      handle_opt).snd.item_state.table id = none ∧
    (CrossDomainContext.context_create_blob ctx rid rcb
      handle_opt).snd.item_state.descriptor_id = ctx.item_state.descriptor_id := by
  cases hI : mapLookup ctx.item_state.table (rcb.blob_id % U32_MOD) with
  | none =>
    simp only [CrossDomainContext.context_create_blob, hI]
    exact ⟨hfree, True.intro⟩
  | some item =>
    cases item with
    | ImageRequirements reqs =>
      have hsnd : (CrossDomainContext.context_create_blob ctx rid rcb handle_opt).snd = ctx := by
        unfold CrossDomainContext.context_create_blob
        simp only [hI]
        split
        · rfl
        · split <;> rfl
      rw [hsnd]
      exact ⟨hfree, rfl⟩
    | Blob hnd =>
      simp only [CrossDomainContext.context_create_blob, hI]
      exact ⟨mapLookup_remove_none _ _ _ hfree, True.intro⟩
    | WaylandReadPipe pipe =>
      simp only [CrossDomainContext.context_create_blob, hI]
      exact ⟨mapLookup_remove_none _ _ _ hfree, True.intro⟩
    | WaylandWritePipe pipe =>
      simp only [CrossDomainContext.context_create_blob, hI]
      exact ⟨mapLookup_remove_none _ _ _ hfree, True.intro⟩

/-- `add_item` never hands out an id at or below the current descriptor
counter, and moves that counter by at most one (within range). -/
theorem add_item_preserves_free (items : CrossDomainItems) (item : CrossDomainItem) (id : Nat)
    (hfree : mapLookup items.table id = none)
    (hle : id ≤ items.descriptor_id)
    (hbound : items.descriptor_id + 1 < CROSS_DOMAIN_PIPE_READ_START) :
    mapLookup (add_item items item).snd.table id = none ∧
    id ≤ (add_item items item).snd.descriptor_id ∧
    (add_item items item).snd.descriptor_id ≤ items.descriptor_id + 1 := by
  have hc2 : CROSS_DOMAIN_PIPE_READ_START = 2147483648 := rfl
  have hc3 : U32_MOD = 4294967296 := rfl
  cases item with
  | WaylandReadPipe p =>
    simp only [add_item]
    have hkey := le_max_right ((items.read_pipe_id + 1) % U32_MOD) CROSS_DOMAIN_PIPE_READ_START
    exact ⟨mapLookup_insert_none _ _ _ _ hfree (by omega), hle, by omega⟩
  | ImageRequirements reqs =>
    simp only [add_item]
    have hmod : (items.descriptor_id + 1) % U32_MOD = items.descriptor_id + 1 :=
      Nat.mod_eq_of_lt (by omega)
    rw [hmod]
    exact ⟨mapLookup_insert_none _ _ _ _ hfree (by omega), by omega, by omega⟩
  | Blob hnd =>
    simp only [add_item]
    have hmod : (items.descriptor_id + 1) % U32_MOD = items.descriptor_id + 1 :=
      Nat.mod_eq_of_lt (by omega)
    rw [hmod]
    exact ⟨mapLookup_insert_none _ _ _ _ hfree (by omega), by omega, by omega⟩
  | WaylandWritePipe p =>
    simp only [add_item]
    have hmod : (items.descriptor_id + 1) % U32_MOD = items.descriptor_id + 1 :=
      Nat.mod_eq_of_lt (by omega)
    rw [hmod]
    exact ⟨mapLookup_insert_none _ _ _ _ hfree (by omega), by omega, by omega⟩

/-- One item-table operation keeps a dead descriptor id dead: the table never
regains the key, and the descriptor counter grows by at most one. -/
theorem applyItemOp_preserves_free (ctx : CrossDomainContext) (op : ItemOp) (id : Nat)
    (hfree : mapLookup ctx.item_state.table id = none)
    (hle : id ≤ ctx.item_state.descriptor_id)
    (hbound : ctx.item_state.descriptor_id + 1 < CROSS_DOMAIN_PIPE_READ_START) :
    mapLookup (applyItemOp ctx op).item_state.table id = none ∧
    id ≤ (applyItemOp ctx op).item_state.descriptor_id ∧
    (applyItemOp ctx op).item_state.descriptor_id ≤ ctx.item_state.descriptor_id + 1 := by
  cases op with
  | add item =>
    simpa only [applyItemOp] using add_item_preserves_free ctx.item_state item id hfree hle hbound
  | writeCmd cmd data =>
    have h := write_preserves_free ctx cmd data id hfree
    simp only [applyItemOp]
    exact ⟨h.1, by omega, by omega⟩
  | createBlob rid rcb hopt =>
    have h := context_create_blob_preserves_free ctx rid rcb hopt id hfree
    simp only [applyItemOp]
    exact ⟨h.1, by omega, by omega⟩
  | pipeRemove pid =>
    simp only [applyItemOp]
    exact ⟨mapLookup_remove_none _ _ _ hfree, hle, by omega⟩

/-- Along any sequence of item-table operations that keeps the descriptor
counter below the read-pipe space, a dead descriptor id stays dead. -/
theorem itemOps_preserve_free (ops : List ItemOp) : ∀ (ctx : CrossDomainContext) (id : Nat),
    mapLookup ctx.item_state.table id = none →
    id ≤ ctx.item_state.descriptor_id →
    ctx.item_state.descriptor_id + ops.length < CROSS_DOMAIN_PIPE_READ_START →
    mapLookup (ops.foldl applyItemOp ctx).item_state.table id = none ∧
    id ≤ (ops.foldl applyItemOp ctx).item_state.descriptor_id ∧
    (ops.foldl applyItemOp ctx).item_state.descriptor_id ≤
      ctx.item_state.descriptor_id + ops.length := by
  induction ops with
  | nil =>
    intro ctx id hfree hle _
    simpa using ⟨hfree, hle⟩
  | cons op rest ih =>
    intro ctx id hfree hle hbound
    simp only [List.length_cons] at hbound
    have hstep := applyItemOp_preserves_free ctx op id hfree hle (by omega)
    have hrec := ih (applyItemOp ctx op) id hstep.1 hstep.2.1 (by omega)
    simp only [List.foldl_cons, List.length_cons]
    exact ⟨hrec.1, hrec.2.1, by omega⟩

/-- A successful WRITE with the hang-up flag set removes the item and leaves
the counters alone. -/
theorem write_hang_up_removes (ctx : CrossDomainContext) (cmd : CrossDomainReadWrite)
    (data : List Nat) (pipe : Nat)
    (hitem : mapLookup ctx.item_state.table cmd.identifier =
      some (CrossDomainItem.WaylandWritePipe pipe))
    (hh : cmd.hang_up ≠ 0) :
    (CrossDomainContext.write ctx cmd data).fst = Except.ok () ∧
    (CrossDomainContext.write ctx cmd data).snd.item_state.table =
      mapRemove ctx.item_state.table cmd.identifier ∧
    (CrossDomainContext.write ctx cmd data).snd.item_state.descriptor_id =
      ctx.item_state.descriptor_id := by
  simp [CrossDomainContext.write, hitem, hh]

/-- A SEND pre-guess below the read-pipe space always mismatches: the id the
table allocates for the new read pipe is `≥ PIPE_READ_START`. -/
theorem sendCollect_read_pipe_guess (resources : ContextResources) (items : CrossDomainItems)
    (np : Nat) (idf : Nat) (hlt : idf < CROSS_DOMAIN_PIPE_READ_START) :
    sendCollect resources items np [] none none [(idf, CROSS_DOMAIN_ID_TYPE_READ_PIPE)] =
      (Except.error RutabagaError.InvalidCrossDomainItemId,
        (add_item items (CrossDomainItem.WaylandReadPipe np)).snd, np + 2) := by
  have hne : (add_item items (CrossDomainItem.WaylandReadPipe np)).fst ≠ idf := by
    simp only [add_item]
    have h := le_max_right ((items.read_pipe_id + 1) % U32_MOD) CROSS_DOMAIN_PIPE_READ_START
    omega
  simp only [sendCollect]
  rw [if_neg (by decide)]
  simp [hne]

/-- A SEND that pre-guesses a read-pipe identifier from outside the read-pipe
space fails with InvalidCrossDomainItemId before transmitting. -/
theorem send_read_pipe_guess_fails (ctx : CrossDomainContext)
    (cmd_send : CrossDomainSendReceive) (od : List Nat) (idf : Nat)
    (hnum : cmd_send.num_identifiers = 1)
    (hids : cmd_send.identifiers = [idf])
    (htys : cmd_send.identifier_types = [CROSS_DOMAIN_ID_TYPE_READ_PIPE])
    (hlt : idf < CROSS_DOMAIN_PIPE_READ_START) :
    (CrossDomainContext.send ctx cmd_send od).fst =
      Except.error RutabagaError.InvalidCrossDomainItemId := by
  unfold CrossDomainContext.send
  rw [hnum, hids, htys]
  rw [if_neg (by decide)]
  simp only [List.zip, List.zipWith, List.take]
  rw [sendCollect_read_pipe_guess ctx.context_resources ctx.item_state ctx.next_pipe idf hlt]

/-- Claim C7: after a successful WRITE with the hang-up flag set on a
WaylandWritePipe item, the identifier is gone from the item table and — under
any later sequence of item-table operations that does not exhaust the
descriptor counter — it is never reassigned, because descriptor ids only
grow past it and read-pipe ids live in the disjoint `≥ PIPE_READ_START`
space.  A later WRITE or `context_create_blob` naming it fails with
InvalidCrossDomainItemId and changes nothing, and a SEND pre-guessing it as a
read-pipe id fails with InvalidCrossDomainItemId too.  The hypotheses
`cmd.identifier ≤ descriptor_id` (every allocated descriptor id is at most
the counter) and the counter budget are invariants of reachable states. -/
theorem C7_write_hang_up_id_dead (ctx : CrossDomainContext) (cmd : CrossDomainReadWrite)
    (data : List Nat) (pipe : Nat) (ops : List ItemOp)
    (hitem : mapLookup ctx.item_state.table cmd.identifier =
      some (CrossDomainItem.WaylandWritePipe pipe))
    (hh : cmd.hang_up ≠ 0)
    (hinv : cmd.identifier ≤ ctx.item_state.descriptor_id)
    (hbound : ctx.item_state.descriptor_id + ops.length < CROSS_DOMAIN_PIPE_READ_START) :
    (CrossDomainContext.write ctx cmd data).fst = Except.ok () ∧
    mapLookup (ops.foldl applyItemOp
      (CrossDomainContext.write ctx cmd data).snd).item_state.table cmd.identifier = none ∧
    (∀ cmd2 data2, cmd2.identifier = cmd.identifier →
      CrossDomainContext.write
          (ops.foldl applyItemOp (CrossDomainContext.write ctx cmd data).snd) cmd2 data2 =
        (Except.error RutabagaError.InvalidCrossDomainItemId,
          ops.foldl applyItemOp (CrossDomainContext.write ctx cmd data).snd)) ∧
    (∀ rid rcb hopt, rcb.blob_id % U32_MOD = cmd.identifier →
      CrossDomainContext.context_create_blob
          (ops.foldl applyItemOp (CrossDomainContext.write ctx cmd data).snd) rid rcb hopt =
        (Except.error RutabagaError.InvalidCrossDomainItemId,
          ops.foldl applyItemOp (CrossDomainContext.write ctx cmd data).snd)) ∧
    (∀ cmd_send od, cmd_send.num_identifiers = 1 →
      cmd_send.identifiers = [cmd.identifier] →
      cmd_send.identifier_types = [CROSS_DOMAIN_ID_TYPE_READ_PIPE] →
      (CrossDomainContext.send
          (ops.foldl applyItemOp (CrossDomainContext.write ctx cmd data).snd) cmd_send od).fst =
        Except.error RutabagaError.InvalidCrossDomainItemId) := by
  obtain ⟨hok, htab, hdesc⟩ := write_hang_up_removes ctx cmd data pipe hitem hh
  have h1 : mapLookup (CrossDomainContext.write ctx cmd data).snd.item_state.table
      cmd.identifier = none := by
    rw [htab]
    exact mapLookup_remove_self _ _
  have h2 : cmd.identifier ≤ (CrossDomainContext.write ctx cmd data).snd.item_state.descriptor_id := by
    rw [hdesc]
    exact hinv
  have h3 : (CrossDomainContext.write ctx cmd data).snd.item_state.descriptor_id + ops.length <
      CROSS_DOMAIN_PIPE_READ_START := by
    rw [hdesc]
    exact hbound
  have hfold := itemOps_preserve_free ops (CrossDomainContext.write ctx cmd data).snd
    cmd.identifier h1 h2 h3
  refine ⟨hok, hfold.1, ?_, ?_, ?_⟩
  · intro cmd2 data2 he
    exact write_absent _ cmd2 data2 (by rw [he]; exact hfold.1)
  · intro rid rcb hopt he
    exact context_create_blob_absent _ rid rcb hopt (by rw [he]; exact hfold.1)
  · intro cmd_send od hn hi ht
    exact send_read_pipe_guess_fails _ cmd_send od cmd.identifier hn hi ht (by omega)

/-- A context holding one WaylandWritePipe item under id 3. -/
def C7_ctx : CrossDomainContext :=
  { CrossDomain.create_context none grallocFail none with
      item_state :=
        { descriptor_id := 3
          read_pipe_id := CROSS_DOMAIN_PIPE_READ_START
          table := [(3, CrossDomainItem.WaylandWritePipe 8)] } }

/-- A WRITE on id 3 with the hang-up flag set. -/
def C7_cmd : CrossDomainReadWrite :=
  { hdr := ⟨CROSS_DOMAIN_CMD_WRITE, sizeOfReadWrite⟩
    identifier := 3
    hang_up := 1
    opaque_data_size := 0
    pad := 0 }

/-- Two later item-table operations: a received blob and a pipe removal. -/
def C7_ops : List ItemOp :=
  [ItemOp.add (CrossDomainItem.Blob ⟨1, MESA_HANDLE_TYPE_MEM_SHM⟩), ItemOp.pipeRemove 9]

theorem C7_write_hang_up_id_dead_witness :
    mapLookup C7_ctx.item_state.table C7_cmd.identifier =
      some (CrossDomainItem.WaylandWritePipe 8) ∧
    C7_cmd.hang_up ≠ 0 ∧
    C7_cmd.identifier ≤ C7_ctx.item_state.descriptor_id ∧
    C7_ctx.item_state.descriptor_id + C7_ops.length < CROSS_DOMAIN_PIPE_READ_START ∧
    ((CrossDomainContext.write C7_ctx C7_cmd []).fst = Except.ok () ∧
     mapLookup (C7_ops.foldl applyItemOp
       (CrossDomainContext.write C7_ctx C7_cmd []).snd).item_state.table C7_cmd.identifier = none ∧
     (∀ cmd2 data2, cmd2.identifier = C7_cmd.identifier →
       CrossDomainContext.write
           (C7_ops.foldl applyItemOp (CrossDomainContext.write C7_ctx C7_cmd []).snd) cmd2 data2 =
         (Except.error RutabagaError.InvalidCrossDomainItemId,
           C7_ops.foldl applyItemOp (CrossDomainContext.write C7_ctx C7_cmd []).snd)) ∧
     (∀ rid rcb hopt, rcb.blob_id % U32_MOD = C7_cmd.identifier →
       CrossDomainContext.context_create_blob
           (C7_ops.foldl applyItemOp (CrossDomainContext.write C7_ctx C7_cmd []).snd) rid rcb hopt =
         (Except.error RutabagaError.InvalidCrossDomainItemId,
           C7_ops.foldl applyItemOp (CrossDomainContext.write C7_ctx C7_cmd []).snd)) ∧
     (∀ cmd_send od, cmd_send.num_identifiers = 1 →
       cmd_send.identifiers = [C7_cmd.identifier] →
       cmd_send.identifier_types = [CROSS_DOMAIN_ID_TYPE_READ_PIPE] →
       (CrossDomainContext.send
           (C7_ops.foldl applyItemOp (CrossDomainContext.write C7_ctx C7_cmd []).snd)
           cmd_send od).fst =
         Except.error RutabagaError.InvalidCrossDomainItemId)) :=
  ⟨by decide, by decide, by decide, by decide,
    C7_write_hang_up_id_dead C7_ctx C7_cmd [] 8 C7_ops (by decide) (by decide) (by decide)
      (by decide)⟩
